import Mathlib

/-!
Verification of the ai-prompt-toolkit core: a shallow embedding of the
injection detector, guardrail engines, prompt analyzer, cost calculator,
fitness evaluator and hill-climbing optimizer, with theorems checking the
specification's claims against the embedded code.

Texts are embedded as `List Char`; Python floats as `ℚ`; Python functions
that can raise as `Except`.
-/

namespace PyRe

/-- Word character in the sense of Python `\w` (ASCII fragment): letters,
digits and underscore. -/
def isWordChar (c : Char) : Bool := c.isAlphanum || c == '_'

/-- Whitespace in the sense of Python `\s` (ASCII fragment). -/
def isSpaceCh (c : Char) : Bool :=
  c == ' ' || c == '\t' || c == '\n' || c == '\r' || c == '\x0b' || c == '\x0c'

/-- Regular-expression syntax covering the constructs used by the
repository's patterns: literals, character classes, concatenation,
alternation, optional groups, greedy star over a character class
(all of `\s+`, `[^>]*`, `.*` fall in this shape) and the word
boundary `\b`.  Matching is case-insensitive throughout, as every
scan in the source passes `re.IGNORECASE` or pre-lowers the text. -/
inductive Re where
  | eps
  | lit (c : Char)
  | cls (f : Char → Bool)
  | seq (a b : Re)
  | alt (a b : Re)
  | opt (a : Re)
  | starCls (f : Char → Bool)
  | bound

/-- Greedy Kleene star over a character class in continuation-passing
style: prefer consuming another class character, backtrack to the
continuation `k` when the longer attempt fails.  The flag threaded next
to the text records whether the previously consumed character was a word
character (for `\b`). -/
def runStar (f : Char → Bool) (k : List Char → Bool → Option (List Char)) :
    List Char → Bool → Option (List Char)
  | [], prev => k [] prev
  | c :: rest, prev =>
    if f c then (runStar f k rest (isWordChar c)) <|> k (c :: rest) prev
    else k (c :: rest) prev

/-- Backtracking matcher in continuation-passing style.  Possibilities are
tried in Python preference order: alternation left-first, quantifiers
greedy.  `prev` is true when the character just before the current
position is a word character. -/
def runRe : Re → List Char → Bool → (List Char → Bool → Option (List Char)) →
    Option (List Char)
  | .eps, s, prev, k => k s prev
  | .lit c, s, _, k =>
    match s with
    | [] => none
    | x :: xs => if x.toLower == c.toLower then k xs (isWordChar x) else none
  | .cls f, s, _, k =>
    match s with
    | [] => none
    | x :: xs => if f x then k xs (isWordChar x) else none
  | .seq a b, s, prev, k => runRe a s prev (fun s2 p2 => runRe b s2 p2 k)
  | .alt a b, s, prev, k => (runRe a s prev k) <|> (runRe b s prev k)
  | .opt a, s, prev, k => (runRe a s prev k) <|> k s prev
  | .starCls f, s, prev, k => runStar f k s prev
  | .bound, s, prev, k =>
    let nextWord := match s with | [] => false | c :: _ => isWordChar c
    if prev != nextWord then k s prev else none

/-- Try to match `r` at the start of `s`; on success return the remainder
of the text after the (preference-first) match. -/
def matchAt (r : Re) (s : List Char) (prev : Bool) : Option (List Char) :=
  runRe r s prev (fun rem _ => some rem)

/-- One match found by `finditer`: start offset, end offset (half-open)
and the matched text. -/
structure ReMatch where
  start : Nat
  stop : Nat
  text : List Char
  deriving DecidableEq, Repr

/-- Scanner behind `finditer`: walk the text left to right, at each
position not inside a previous match try `matchAt`; after a non-empty
match resume scanning at its end (`skip` counts characters still to
drop).  No pattern in the repository can match the empty string; the
`L = 0` branch exists only to keep the function total. -/
def findGo (r : Re) : List Char → Bool → Nat → Nat → List ReMatch
  | [], _, _, _ => []
  | c :: rest, _, pos, skip+1 => findGo r rest (isWordChar c) (pos+1) skip
  | c :: rest, prev, pos, 0 =>
    match matchAt r (c :: rest) prev with
    | some rem =>
      let L := (c :: rest).length - rem.length
      if L == 0 then findGo r rest (isWordChar c) (pos+1) 0
      else ⟨pos, pos + L, (c :: rest).take L⟩ :: findGo r rest (isWordChar c) (pos+1) (L-1)
    | none => findGo r rest (isWordChar c) (pos+1) 0

/-- Python `re.finditer(r, s, re.IGNORECASE)`: all non-overlapping
matches, leftmost first. -/
def finditer (r : Re) (s : List Char) : List ReMatch :=
  findGo r s false 0 0

/-- Python `re.search(r, s, re.IGNORECASE) is not None`. -/
def search (r : Re) (s : List Char) : Bool :=
  !(finditer r s).isEmpty

/-- Scanner behind `re.sub`: copy characters, and at each match emit
`repl` applied to the matched text, then resume after the match. -/
def subGo (r : Re) (repl : List Char → List Char) : List Char → Bool → Nat → List Char
  | [], _, _ => []
  | c :: rest, _, skip+1 => subGo r repl rest (isWordChar c) skip
  | c :: rest, prev, 0 =>
    match matchAt r (c :: rest) prev with
    | some rem =>
      let L := (c :: rest).length - rem.length
      if L == 0 then c :: subGo r repl rest (isWordChar c) 0
      else repl ((c :: rest).take L) ++ subGo r repl rest (isWordChar c) (L-1)
    | none => c :: subGo r repl rest (isWordChar c) 0

/-- Python `re.sub(r, repl, s, re.IGNORECASE)` for a replacement computed
from the matched text. -/
def sub (r : Re) (repl : List Char → List Char) (s : List Char) : List Char :=
  subGo r repl s false 0

/-- Literal string pattern. -/
def str (w : String) : Re :=
  w.data.foldr (fun c r => Re.seq (Re.lit c) r) Re.eps

/-- Alternation of a non-empty list, left-preferring like Python `(?:a|b|c)`. -/
def altL : List Re → Re
  | [] => Re.eps
  | [r] => r
  | r :: rest => Re.alt r (altL rest)

/-- `\s+` -/
def wsP : Re := Re.seq (Re.cls isSpaceCh) (Re.starCls isSpaceCh)

/-- `\s*` -/
def wsS : Re := Re.starCls isSpaceCh

/-- `\d` -/
def digit : Re := Re.cls Char.isDigit

/-- `\d{n}` -/
def digits : Nat → Re
  | 0 => Re.eps
  | n+1 => Re.seq digit (digits n)

/-- `.` (any character but newline) -/
def dotAny : Re := Re.cls (fun c => c != '\n')

/-- Concatenation of a pattern list. -/
def seqL : List Re → Re
  | [] => Re.eps
  | [r] => r
  | r :: rest => Re.seq r (seqL rest)

/-- Alternation of literal words, `(?:w1|w2|...)`. -/
def words (ws : List String) : Re := altL (ws.map str)

/-- `\bw\b` for a literal keyword. -/
def wordB (w : String) : Re := seqL [Re.bound, str w, Re.bound]

/-- `\b(w1|w2|...)\b` -/
def wordsB (ws : List String) : Re := seqL [Re.bound, words ws, Re.bound]

end PyRe

namespace PyStr

/-- Python `str.lower()` (ASCII fragment). -/
def lower (s : List Char) : List Char := s.map Char.toLower

/-- Does `needle` occur as a contiguous substring of `hay`?  Python's
`needle in hay`. -/
def containsSub (hay needle : List Char) : Bool :=
  match hay with
  | [] => needle.isEmpty
  | _ :: rest => needle.isPrefixOf hay || containsSub rest needle

/-- Python `str.split()` with no arguments: split on whitespace runs,
dropping empty pieces. -/
def splitWs (s : List Char) : List (List Char) :=
  (s.splitOnP (fun c => PyRe.isSpaceCh c)).filter (fun w => !w.isEmpty)

/-- Python `len(s.split())`. -/
def wordCount (s : List Char) : Nat := (splitWs s).length

/-- Python `s.count(c)`. -/
def countChar (s : List Char) (c : Char) : Nat := s.count c

/-- Sentence punctuation class `[.!?]`. -/
def isSentencePunct (c : Char) : Bool := c == '.' || c == '!' || c == '?'

/-- Number of maximal runs of sentence punctuation in `s`; the flag says
whether the previous character belonged to a run. -/
def punctRuns : List Char → Bool → Nat
  | [], _ => 0
  | c :: rest, inRun =>
    if isSentencePunct c then
      (if inRun then 0 else 1) + punctRuns rest true
    else punctRuns rest false

/-- Python `len(re.split(r'[.!?]+', s))`: `re.split` produces one piece
per gap around the maximal punctuation runs, so the count is the number
of runs plus one (in particular 1, not 0, for the empty string). -/
def sentencePieces (s : List Char) : Nat := punctRuns s false + 1

end PyStr

/-! ## Injection detector (`security/injection_detector.py`) -/

namespace InjectionDetector

open PyRe

/-- Types of prompt injection attacks. -/
inductive InjectionType where
  | instruction_override
  | context_switching
  | role_playing
  | system_prompt_leak
  | jailbreak
  | data_extraction
  | malicious_code
  deriving DecidableEq, Repr

/-- Threat levels for detected injections. -/
inductive ThreatLevel where
  | low
  | medium
  | high
  | critical
  deriving DecidableEq, Repr

/-- The patterns of `_load_detection_rules`, category by category.  The
Lean values transliterate the regular expressions of the source. -/
def instruction_override_patterns : List Re :=
  [ seqL [str "ignore", wsP, words ["previous", "all", "the"], wsP,
      str "instruction", .opt (.lit 's')],
    seqL [str "forget", wsP, words ["everything", "all", "previous"]],
    seqL [str "disregard", wsP, words ["previous", "all", "the"], wsP,
      str "instruction", .opt (.lit 's')],
    seqL [str "new", wsP, str "instruction", .opt (.lit 's'), .lit ':'],
    seqL [str "instead", wsP, str "of", wsP, words ["following", "doing"]],
    seqL [str "override", wsP, words ["previous", "system"], wsP,
      str "instruction", .opt (.lit 's')],
    seqL [str "cancel", wsP, words ["previous", "all"], wsP,
      str "instruction", .opt (.lit 's')] ]

def context_switching_patterns : List Re :=
  [ seqL [str "now", wsP,
      altL [seqL [str "you", wsP, str "are"], seqL [str "act", wsP, str "as"],
        seqL [str "pretend", wsP, str "to", wsP, str "be"]]],
    seqL [str "from", wsP, str "now", wsP, str "on", wsP, str "you", wsP,
      words ["are", "will"]],
    seqL [str "switch", wsP, str "to", wsP, .opt (seqL [str "a", wsP]),
      .opt (seqL [str "new", wsP]), words ["role", "mode", "character"]],
    seqL [str "change", wsP, str "your", wsP,
      words ["role", "behavior", "personality"]],
    seqL [str "you", wsP, str "are", wsP, str "no", wsP, str "longer"],
    seqL [str "stop", wsP, str "being", wsP,
      .opt (seqL [str "a", .opt (.lit 'n'), wsP]), words ["assistant", "ai", "bot"]] ]

def role_playing_patterns : List Re :=
  [ seqL [str "pretend", wsP,
      altL [seqL [str "to", wsP, str "be"], seqL [str "you", wsP, str "are"]]],
    seqL [str "act", wsP, words ["as", "like"], wsP,
      .opt (seqL [str "a", .opt (.lit 'n'), wsP]), words ["evil", "malicious", "harmful"]],
    seqL [str "roleplay", wsP, str "as"],
    seqL [str "imagine", wsP, str "you", wsP, str "are", wsP,
      .opt (seqL [str "a", .opt (.lit 'n'), wsP]), words ["evil", "malicious", "harmful"]],
    seqL [str "you", wsP, str "are", wsP,
      .opt (seqL [str "a", .opt (.lit 'n'), wsP]),
      words ["evil", "malicious", "harmful", "dangerous"]],
    seqL [str "simulate", wsP, .opt (seqL [str "being", wsP]),
      .opt (seqL [str "a", .opt (.lit 'n'), wsP]), words ["evil", "malicious", "harmful"]] ]

/-- `(?:me\s+)?(?:your\s+)?(?:system\s+)?(?:prompt|instructions)` tail of
the system-leak patterns, with a configurable optional second word. -/
def leakTail (withMe : Bool) : Re :=
  seqL [(if withMe then .opt (seqL [str "me", wsP]) else .opt (seqL [str "are", wsP])),
    .opt (seqL [str "your", wsP]), .opt (seqL [str "system", wsP]),
    words ["prompt", "instructions"]]

def system_leak_patterns : List Re :=
  [ seqL [str "show", wsP, leakTail true],
    seqL [str "what", wsP, leakTail false],
    seqL [str "reveal", wsP, .opt (seqL [str "your", wsP]),
      .opt (seqL [str "system", wsP]), words ["prompt", "instructions"]],
    seqL [str "display", wsP, .opt (seqL [str "your", wsP]),
      .opt (seqL [str "system", wsP]), words ["prompt", "instructions"]],
    seqL [str "print", wsP, .opt (seqL [str "your", wsP]),
      .opt (seqL [str "system", wsP]), words ["prompt", "instructions"]],
    seqL [str "output", wsP, .opt (seqL [str "your", wsP]),
      .opt (seqL [str "system", wsP]), words ["prompt", "instructions"]] ]

def jailbreak_patterns : List Re :=
  [ str "jailbreak",
    seqL [str "dan", wsP, str "mode"],
    seqL [str "developer", wsP, str "mode"],
    seqL [str "unrestricted", wsP, str "mode"],
    seqL [str "bypass", wsP, words ["safety", "restrictions", "guidelines"]],
    seqL [str "remove", wsP, words ["safety", "restrictions", "limitations"]],
    seqL [str "disable", wsP, words ["safety", "restrictions", "filters"]],
    seqL [str "without", wsP, words ["restrictions", "limitations", "safety"]] ]

def data_extraction_patterns : List Re :=
  [ seqL [str "extract", wsP, .opt (seqL [str "all", wsP]),
      words ["data", "information", "content"]],
    seqL [str "dump", wsP, .opt (seqL [str "all", wsP]),
      words ["data", "database", "memory"]],
    seqL [str "show", wsP, .opt (seqL [str "all", wsP]),
      words ["data", "files", "content"]],
    seqL [str "list", wsP, .opt (seqL [str "all", wsP]),
      words ["files", "data", "users"]],
    seqL [str "access", wsP, .opt (seqL [str "all", wsP]),
      words ["data", "files", "database"]],
    seqL [str "retrieve", wsP, .opt (seqL [str "all", wsP]),
      words ["data", "information"]] ]

def malicious_code_patterns : List Re :=
  [ seqL [str "<script", .starCls (fun c => c != '>'), .lit '>'],
    str "javascript:",
    seqL [str "eval", wsS, .lit '('],
    seqL [str "exec", wsS, .lit '('],
    seqL [str "system", wsS, .lit '('],
    seqL [str "shell_exec", wsS, .lit '('],
    seqL [str "passthru", wsS, .lit '('],
    seqL [str "file_get_contents", wsS, .lit '('],
    seqL [str "curl", wsP, .starCls (fun c => c != '\n'), words ["http", "ftp"]],
    seqL [str "wget", wsP, .starCls (fun c => c != '\n'), words ["http", "ftp"]] ]

def suspicious_keywords : List String :=
  ["hack", "exploit", "vulnerability", "backdoor", "malware",
   "virus", "trojan", "phishing", "scam", "fraud",
   "illegal", "criminal", "terrorist", "bomb", "weapon",
   "drug", "suicide", "self-harm", "violence", "murder"]

/-- A detection record as assembled by the `_check_*` helpers.  The raw
pattern string of the Python record is not carried (it is display-only);
`position` is `none` for keyword hits, mirroring the `None` in the source. -/
structure Detection where
  dtype : InjectionType
  threat_level : ThreatLevel
  matched : List Char
  position : Option (Nat × Nat)
  description : String
  deriving DecidableEq, Repr

/-- Common body of `_check_instruction_override` … `_check_malicious_code`:
every `finditer` match of every pattern becomes a record with the
category's fixed type, threat level and description. -/
def checkPatterns (patterns : List Re) (ty : InjectionType) (lvl : ThreatLevel)
    (descr : String) (prompt : List Char) : List Detection :=
  patterns.flatMap (fun p =>
    (finditer p prompt).map (fun m =>
      { dtype := ty, threat_level := lvl, matched := m.text,
        position := some (m.start, m.stop), description := descr }))

def check_instruction_override (prompt : List Char) : List Detection :=
  checkPatterns instruction_override_patterns .instruction_override .high
    "Attempt to override system instructions" prompt

def check_context_switching (prompt : List Char) : List Detection :=
  checkPatterns context_switching_patterns .context_switching .medium
    "Attempt to switch AI context or role" prompt

def check_role_playing (prompt : List Char) : List Detection :=
  checkPatterns role_playing_patterns .role_playing .high
    "Attempt to make AI roleplay as malicious entity" prompt

def check_system_leak (prompt : List Char) : List Detection :=
  checkPatterns system_leak_patterns .system_prompt_leak .medium
    "Attempt to extract system prompt or instructions" prompt

def check_jailbreak (prompt : List Char) : List Detection :=
  checkPatterns jailbreak_patterns .jailbreak .critical
    "Attempt to bypass AI safety restrictions" prompt

def check_data_extraction (prompt : List Char) : List Detection :=
  checkPatterns data_extraction_patterns .data_extraction .high
    "Attempt to extract sensitive data" prompt

def check_malicious_code (prompt : List Char) : List Detection :=
  checkPatterns malicious_code_patterns .malicious_code .critical
    "Potential malicious code injection" prompt

/-- `_check_suspicious_keywords`: one MEDIUM jailbreak-typed record per
keyword found with `re.search(r'\b' + kw + r'\b')`, position `None`. -/
def check_suspicious_keywords (prompt : List Char) : List Detection :=
  suspicious_keywords.flatMap (fun kw =>
    if search (wordB kw) prompt then
      [{ dtype := .jailbreak, threat_level := .medium, matched := kw.data,
         position := none,
         description := "Suspicious keyword detected: " ++ kw }]
    else [])

/-- `_calculate_risk_score`'s threat weights. -/
def threatWeight : ThreatLevel → ℚ
  | .low => 1/10
  | .medium => 3/10
  | .high => 7/10
  | .critical => 1

/-- `_calculate_risk_score`: 0 with no detections, otherwise the weight
sum over the maximal possible score `N · 1.0`, capped at 1. -/
def calculate_risk_score (detections : List Detection) : ℚ :=
  if detections.isEmpty then 0
  else
    let total := (detections.map (fun d => threatWeight d.threat_level)).sum
    min 1 (total / (detections.length : ℚ))

/-- `_get_recommendations`. -/
def get_recommendations (detections : List Detection) : List String :=
  if detections.isEmpty then ["No security issues detected"]
  else
    let base := ["Review and sanitize the input prompt",
      "Consider implementing additional input validation",
      "Monitor for similar patterns in future requests"]
    let levels := detections.map (·.threat_level)
    if levels.contains .critical then
      base ++ ["CRITICAL: Block this request immediately",
        "Investigate the source of this request",
        "Consider implementing stricter security measures"]
    else if levels.contains .high then
      base ++ ["HIGH RISK: Carefully review before processing",
        "Consider requiring additional authentication"]
    else base

/-- Result of `detect_injection`. -/
structure DetectionResult where
  is_injection : Bool
  threat_level : ThreatLevel
  detections : List Detection
  risk_score : ℚ
  recommendations : List String
  deriving DecidableEq, Repr

/-- `detect_injection`: concatenate all category checks, take the maximal
threat level present (LOW when there is none), and attach risk score and
recommendations. -/
def detect_injection (prompt : List Char) : DetectionResult :=
  let detections :=
    check_instruction_override prompt ++ check_context_switching prompt ++
    check_role_playing prompt ++ check_system_leak prompt ++
    check_jailbreak prompt ++ check_data_extraction prompt ++
    check_malicious_code prompt ++ check_suspicious_keywords prompt
  let levels := detections.map (·.threat_level)
  let maxLevel : ThreatLevel :=
    if detections.isEmpty then .low
    else if levels.contains .critical then .critical
    else if levels.contains .high then .high
    else if levels.contains .medium then .medium
    else .low
  { is_injection := !detections.isEmpty,
    threat_level := maxLevel,
    detections := detections,
    risk_score := calculate_risk_score detections,
    recommendations := get_recommendations detections }

/-- `validate_prompt`: raises `PromptInjectionDetected` (modelled as the
error branch carrying the detection result) when an injection is found
and either strict mode is on or the threat level is HIGH/CRITICAL;
otherwise returns `True`. -/
def validate_prompt (prompt : List Char) (strict_mode : Bool := false) :
    Except DetectionResult Bool :=
  let r := detect_injection prompt
  if r.is_injection &&
      (strict_mode || (r.threat_level == .high || r.threat_level == .critical)) then
    .error r
  else
    .ok true

end InjectionDetector

/-! ## Guardrail rule engine (`security/guardrails.py`) -/

namespace Guardrails

open PyRe PyStr

/-- Types of guardrail violations. -/
inductive GuardrailType where
  | content_filter
  | ethical_violation
  | safety_constraint
  | output_validation
  | privacy_violation
  | bias_detection
  | harmful_content
  | inappropriate_request
  deriving DecidableEq, Repr

/-- Severity levels for guardrail violations. -/
inductive Severity where
  | info
  | warning
  | error
  | critical
  deriving DecidableEq, Repr

/-- A guardrail rule.  All six default rules have `custom_validator = None`
in the source, so the optional predicate is not carried. -/
structure GuardrailRule where
  name : String
  description : String
  rule_type : GuardrailType
  severity : Severity
  patterns : List Re
  keywords : List String
  enabled : Bool := true

/-- A `GuardrailViolationResult`. -/
structure Violation where
  rule_name : String
  rule_type : GuardrailType
  severity : Severity
  description : String
  matched_text : List Char
  position : Nat × Nat
  confidence : ℚ
  recommendation : String
  deriving DecidableEq, Repr

/-- `[- ]?` of the credit-card pattern. -/
def dashSpaceOpt : Re := Re.opt (Re.cls (fun c => c == '-' || c == ' '))

/-- The six rules of `_initialize_default_rules`, patterns transliterated. -/
def default_rules : List GuardrailRule :=
  [ { name := "harmful_content_filter",
      description := "Detects harmful, violent, or dangerous content",
      rule_type := .harmful_content, severity := .critical,
      patterns :=
        [ seqL [.bound, altL [str "kill", str "murder", str "suicide",
            seqL [str "self", .opt (.lit '-'), str "harm"],
            str "violence", str "weapon", str "bomb", str "explosive"], .bound],
          wordsB ["hate", "racism", "discrimination", "harassment", "bullying"],
          wordsB ["illegal", "criminal", "fraud", "scam", "theft", "piracy"] ],
      keywords := ["violence", "weapon", "bomb", "kill", "murder", "suicide",
        "self-harm", "hate", "racism", "discrimination", "harassment",
        "illegal", "criminal"] },
    { name := "privacy_protection",
      description := "Detects requests for personal information or privacy violations",
      rule_type := .privacy_violation, severity := .error,
      patterns :=
        [ wordsB ["ssn", "social security", "credit card", "password", "api key",
            "token"],
          wordsB ["personal information", "private data", "confidential"],
          seqL [.bound, digits 3, .lit '-', digits 2, .lit '-', digits 4, .bound],
          seqL [.bound, digits 4, dashSpaceOpt, digits 4, dashSpaceOpt, digits 4,
            dashSpaceOpt, digits 4, .bound] ],
      keywords := ["personal information", "private data", "confidential",
        "password", "credit card", "ssn", "social security", "api key", "token"] },
    { name := "ethical_guidelines",
      description := "Enforces ethical AI usage guidelines",
      rule_type := .ethical_violation, severity := .warning,
      patterns :=
        [ wordsB ["manipulate", "deceive", "trick", "fool", "mislead"],
          wordsB ["fake news", "misinformation", "propaganda", "conspiracy"],
          wordsB ["cheat", "plagiarize", "academic dishonesty"] ],
      keywords := ["manipulate", "deceive", "trick", "mislead", "fake news",
        "misinformation", "cheat", "plagiarize", "academic dishonesty"] },
    { name := "bias_detection",
      description := "Detects potential bias in prompts",
      rule_type := .bias_detection, severity := .warning,
      patterns :=
        [ seqL [.bound, str "all ", words ["men", "women", "blacks", "whites",
            "asians", "muslims", "christians", "jews"], .bound],
          seqL [.bound, str "typical ", words ["male", "female", "gay", "straight"],
            .bound],
          seqL [.bound, str "obviously ", words ["inferior", "superior"], .bound] ],
      keywords := ["stereotype", "generalization", "all men", "all women",
        "typical"] },
    { name := "inappropriate_requests",
      description := "Detects inappropriate or adult content requests",
      rule_type := .inappropriate_request, severity := .error,
      patterns :=
        [ wordsB ["sexual", "explicit", "adult", "nsfw", "pornographic"],
          wordsB ["drug", "narcotic", "substance abuse", "addiction"],
          wordsB ["gambling", "betting", "casino"] ],
      keywords := ["sexual", "explicit", "adult", "nsfw", "pornographic",
        "drug", "narcotic", "gambling", "betting"] },
    { name := "safety_constraints",
      description := "Enforces safety constraints for AI interactions",
      rule_type := .safety_constraint, severity := .error,
      patterns :=
        [ seqL [.bound, words ["bypass", "circumvent", "override", "disable"],
            .lit ' ', words ["safety", "security", "protection"], .bound],
          wordsB ["unlimited", "unrestricted", "no limits", "no boundaries"],
          seqL [.bound, altL [str "pretend", str "act as", str "roleplay as"],
            .lit ' ', words ["evil", "malicious", "harmful"], .bound] ],
      keywords := ["bypass safety", "override security", "unlimited access",
        "no restrictions", "act as evil", "pretend to be harmful"] } ]

/-- `_get_rule_recommendation`. -/
def get_rule_recommendation (rule : GuardrailRule) : String :=
  match rule.rule_type with
  | .harmful_content => "Remove harmful, violent, or dangerous content from your prompt"
  | .privacy_violation => "Remove requests for personal or confidential information"
  | .ethical_violation => "Ensure your prompt follows ethical AI usage guidelines"
  | .bias_detection => "Rephrase to avoid stereotypes and biased language"
  | .inappropriate_request => "Remove inappropriate or adult content from your request"
  | .safety_constraint => "Modify prompt to comply with AI safety constraints"
  | .output_validation => "Review and modify the generated content"
  | _ => "Review and modify your prompt"

/-- Position of the first occurrence of `needle` in `hay` (Python
`str.find`), or 0 when absent — `_check_rule` only calls it after a
successful containment test. -/
def findSub (hay needle : List Char) : Nat :=
  match hay with
  | [] => 0
  | _ :: rest =>
    if needle.isPrefixOf hay then 0 else findSub rest needle + 1

/-- `_check_rule`: every regex match at confidence 0.9, then every keyword
contained case-insensitively at confidence 0.7 (positioned at its first
occurrence in the lowered text). -/
def check_rule (text : List Char) (rule : GuardrailRule) : List Violation :=
  let patternViolations :=
    rule.patterns.flatMap (fun p =>
      (finditer p text).map (fun m =>
        { rule_name := rule.name, rule_type := rule.rule_type,
          severity := rule.severity, description := rule.description,
          matched_text := m.text, position := (m.start, m.stop),
          confidence := 9/10,
          recommendation := get_rule_recommendation rule }))
  let keywordViolations :=
    rule.keywords.flatMap (fun kw =>
      if containsSub (lower text) (lower kw.data) then
        [{ rule_name := rule.name, rule_type := rule.rule_type,
           severity := rule.severity, description := rule.description,
           matched_text := kw.data,
           position := (findSub (lower text) (lower kw.data),
             findSub (lower text) (lower kw.data) + kw.data.length),
           confidence := 7/10,
           recommendation := get_rule_recommendation rule }]
      else [])
  patternViolations ++ keywordViolations

/-- `_get_recommendations`: one overall recommendation per violation type
present.  Python iterates a `set`; the embedding iterates the types in
first-occurrence order (the claims never inspect this list's order). -/
def get_overall_recommendations (violations : List Violation) : List String :=
  if violations.isEmpty then ["Prompt passed all guardrail checks"]
  else
    ((violations.map (·.rule_type)).dedup).filterMap (fun t =>
      match t with
      | .harmful_content => some "Remove any harmful, violent, or dangerous content"
      | .privacy_violation => some "Avoid requesting personal or confidential information"
      | .ethical_violation => some "Ensure ethical AI usage and avoid deceptive requests"
      | .bias_detection => some "Use inclusive language and avoid stereotypes"
      | .inappropriate_request => some "Keep content appropriate and professional"
      | .safety_constraint => some "Respect AI safety guidelines and limitations"
      | _ => none)

/-- Summary block of a verdict. -/
structure VerdictSummary where
  total_violations : Nat
  critical : Nat
  errors : Nat
  warnings : Nat
  info : Nat
  deriving DecidableEq, Repr

/-- Verdict of `GuardrailEngine.validate_prompt`. -/
structure Verdict where
  is_safe : Bool
  passed : Bool
  violations : List Violation
  summary : VerdictSummary
  recommendations : List String
  deriving DecidableEq, Repr

/-- `GuardrailEngine.validate_prompt` with the engine in its initial state
(`enabled = True`, the six default rules all enabled): prepend a CRITICAL
injection violation when the injection detector fires, then run every
rule; safe iff no CRITICAL violation and, in strict mode, no ERROR one. -/
def validate_prompt (prompt : List Char) (strict_mode : Bool := false) : Verdict :=
  let injection_result := InjectionDetector.detect_injection prompt
  let injectionViolations : List Violation :=
    if injection_result.is_injection then
      [{ rule_name := "injection_detection", rule_type := .safety_constraint,
         severity := .critical,
         description := "Prompt injection attack detected",
         matched_text :=
           if prompt.length > 100 then prompt.take 100 ++ "...".data else prompt,
         position := (0, prompt.length),
         confidence := injection_result.risk_score,
         recommendation := "Rewrite prompt without injection patterns" }]
    else []
  let violations :=
    injectionViolations ++
      default_rules.flatMap (fun rule =>
        if rule.enabled then check_rule prompt rule else [])
  let criticalViolations := violations.filter (fun v => v.severity == .critical)
  let errorViolations := violations.filter (fun v => v.severity == .error)
  let is_safe := criticalViolations.isEmpty &&
    (!strict_mode || errorViolations.isEmpty)
  { is_safe := is_safe, passed := is_safe, violations := violations,
    summary :=
      { total_violations := violations.length,
        critical := criticalViolations.length,
        errors := errorViolations.length,
        warnings := (violations.filter (fun v => v.severity == .warning)).length,
        info := (violations.filter (fun v => v.severity == .info)).length },
    recommendations := get_overall_recommendations violations }

end Guardrails

/-! ## Enhanced guardrail facade (`security/enhanced_guardrails.py`) -/

namespace Enhanced

open Guardrails

/-- String value of a `GuardrailType`, as produced by `.value` in
`_violation_to_dict`. -/
def typeValue : GuardrailType → String
  | .content_filter => "content_filter"
  | .ethical_violation => "ethical_violation"
  | .safety_constraint => "safety_constraint"
  | .output_validation => "output_validation"
  | .privacy_violation => "privacy_violation"
  | .bias_detection => "bias_detection"
  | .harmful_content => "harmful_content"
  | .inappropriate_request => "inappropriate_request"

/-- Outcome of `_validate_with_guardrails_ai` when the external
guardrails-ai validator is installed (`validated_output` and
`raw_result` are display-only and not carried). -/
structure ExtResult where
  passed : Bool
  error : Option String
  deriving DecidableEq, Repr

/-- A violation dictionary as it appears in the combined list: the
dictionaries built by `_violation_to_dict` carry a position and a
confidence, the synthetic external-validation entry has neither. -/
structure CombinedViolation where
  rule_name : String
  rule_type : String
  severity : Severity
  description : String
  matched_text : String
  recommendation : String
  position : Option (Nat × Nat)
  confidence : Option ℚ
  deriving DecidableEq, Repr

/-- `_violation_to_dict`. -/
def violation_to_dict (v : Violation) : CombinedViolation :=
  { rule_name := v.rule_name, rule_type := typeValue v.rule_type,
    severity := v.severity, description := v.description,
    matched_text := String.mk v.matched_text,
    recommendation := v.recommendation,
    position := some v.position, confidence := some v.confidence }

/-- Summary block of `_combine_results`. -/
structure CombinedSummary where
  total_violations : Nat
  custom_violations : Nat
  guardrails_ai_violations : Nat
  overall_safe : Bool
  deriving DecidableEq, Repr

/-- Combined verdict dictionary returned by `_combine_results`. -/
structure CombinedResult where
  is_safe : Bool
  passed : Bool
  violations : List CombinedViolation
  recommendations : List String
  summary : CombinedSummary
  deriving DecidableEq, Repr

/-- The synthetic violation appended when guardrails-ai rejects. -/
def externalViolation (g : ExtResult) : CombinedViolation :=
  { rule_name := "guardrails_ai_validation", rule_type := "external_validation",
    severity := .error, description := "Guardrails-AI validation failed",
    matched_text := g.error.getD "Unknown error",
    recommendation := "Review content for policy violations",
    position := none, confidence := none }

/-- `_combine_results`: start from the custom verdict, append one ERROR
violation when guardrails-ai rejected; safe iff both layers are safe
(`None` for the external layer counts as passed). -/
def combine_results (custom : Verdict) (gai : Option ExtResult) : CombinedResult :=
  let customViolations := custom.violations.map violation_to_dict
  let gaiFailed := match gai with
    | some g => !g.passed
    | none => false
  let combinedViolations :=
    customViolations ++ (match gai with
      | some g => if !g.passed then [externalViolation g] else []
      | none => [])
  let combinedRecommendations :=
    custom.recommendations ++
      (if gaiFailed then ["Content failed external validation checks"] else [])
  let overall_safe := custom.is_safe && (match gai with
    | some g => g.passed
    | none => true)
  { is_safe := overall_safe, passed := overall_safe,
    violations := combinedViolations,
    recommendations := combinedRecommendations,
    summary :=
      { total_violations := combinedViolations.length,
        custom_violations := customViolations.length,
        guardrails_ai_violations := if gaiFailed then 1 else 0,
        overall_safe := overall_safe } }

/-- An `EnhancedGuardrailResult`. -/
structure Result where
  is_safe : Bool
  passed : Bool
  violations : List CombinedViolation
  guardrails_ai_result : Option ExtResult
  custom_result : Verdict
  recommendations : List String
  summary : CombinedSummary
  deriving DecidableEq, Repr

/-- The external validator as a capability: `none` when guardrails-ai is
not installed (the engine degrades gracefully), otherwise the function
the guard applies to a text. -/
def ExtOracle := Option (List Char → ExtResult)

/-- `EnhancedGuardrailEngine.validate_prompt`: custom validation in
non-strict mode, optional external validation, combined verdict. -/
def validate_prompt (ext : ExtOracle) (prompt : List Char) : Result :=
  let custom := Guardrails.validate_prompt prompt false
  let gai := ext.map (fun f => f prompt)
  let combined := combine_results custom gai
  { is_safe := combined.is_safe, passed := combined.passed,
    violations := combined.violations,
    guardrails_ai_result := gai, custom_result := custom,
    recommendations := combined.recommendations, summary := combined.summary }

/-- Result dictionary of `validate_optimization_request`. -/
structure OptValidation where
  original_validation : Result
  optimized_validation : Result
  safety_maintained : Bool
  quality_improved : Bool
  optimization_safe : Bool
  recommendations : List String
  deriving DecidableEq, Repr

/-- `validate_optimization_request`: validate both prompts and compare.
Python compares the booleans with `>=` (False < True), and the violation
lists by length. -/
def validate_optimization_request (ext : ExtOracle)
    (original_prompt optimized_prompt : List Char) : OptValidation :=
  let original_result := validate_prompt ext original_prompt
  let optimized_result := validate_prompt ext optimized_prompt
  let safety_maintained := original_result.is_safe ≤ optimized_result.is_safe
  let quality_improved :=
    optimized_result.violations.length ≤ original_result.violations.length
  { original_validation := original_result,
    optimized_validation := optimized_result,
    safety_maintained := safety_maintained,
    quality_improved := decide quality_improved,
    optimization_safe := safety_maintained && optimized_result.is_safe,
    recommendations :=
      [if safety_maintained then "Optimization maintained safety standards"
       else "Optimization may have introduced safety issues",
       if quality_improved then "Optimization improved quality"
       else "Optimization may have introduced new issues"] }

end Enhanced

/-! ## Prompt analyzer (`utils/prompt_analyzer.py`) -/

namespace Analyzer

open PyRe PyStr

/-- The only exception the analyzer itself can raise: indexing `prompt[0]`
in `_calculate_quality_score` on the empty string. -/
inductive AnalyzerError where
  | indexError
  deriving DecidableEq, Repr

/-- `_estimate_token_count`: `len(text) // 4`. -/
def estimate_token_count (text : List Char) : Nat := text.length / 4

/-- Instruction-verb patterns of `_count_instructions` (run with
`re.findall` over the lowered prompt). -/
def instructionPattern1 : Re :=
  wordsB ["please", "write", "generate", "create", "analyze", "explain",
    "describe", "list", "provide", "give", "tell", "show"]

def instructionPattern2 : Re :=
  wordsB ["you should", "you must", "you need to", "make sure to"]

/-- `_count_instructions`: total number of matches of both patterns in the
lowered prompt. -/
def count_instructions (prompt : List Char) : Nat :=
  (finditer instructionPattern1 (lower prompt)).length +
    (finditer instructionPattern2 (lower prompt)).length

/-- `_calculate_clarity_score`. -/
def calculate_clarity_score (prompt : List Char) : ℚ :=
  let lp := lower prompt
  let hasAny (ws : List String) : Bool := ws.any (fun w => containsSub lp w.data)
  let score : ℚ := 1/2
  let score := if hasAny ["please", "write", "generate", "create", "analyze",
      "explain", "describe"] then score + 1/10 else score
  let score := if hasAny ["must include", "should contain", "requirements"]
    then score + 1/10 else score
  let score := if hasAny ["example", "for instance", "such as"]
    then score + 1/10 else score
  let score := if hasAny ["format", "structure", "organize"]
    then score + 1/10 else score
  let score := if wordCount prompt > 200 then score - 1/10 else score
  let score := if hasAny ["maybe", "perhaps", "might", "could possibly"]
    then score - 1/10 else score
  max 0 (min 1 score)

/-- `_calculate_quality_score`: raises IndexError on the empty prompt
(`prompt[0]`), otherwise sums the good-practice bonuses and clamps. -/
def calculate_quality_score (prompt : List Char) : Except AnalyzerError ℚ :=
  let lp := lower prompt
  let hasAny (ws : List String) : Bool := ws.any (fun w => containsSub lp w.data)
  let score : ℚ := 1/2
  let score := if hasAny ["task", "goal", "objective"] then score + 1/10 else score
  let score := if hasAny ["context", "background", "given"] then score + 1/10 else score
  let score := if hasAny ["expect", "should", "must"] then score + 1/10 else score
  let score := if hasAny ["output", "result", "response"] then score + 1/10 else score
  let score := if hasAny ["example", "instance", "sample"] then score + 1/10 else score
  let score := if wordCount prompt ≥ 20 then score + 1/10 else score
  match prompt with
  | [] => .error .indexError
  | c :: _ =>
    let endsSent := match prompt.getLast? with
      | some d => isSentencePunct d
      | none => false
    let score := if c.isUpper && endsSent then score + 1/20 else score
    .ok (max 0 (min 1 score))

/-- Injection patterns of `_calculate_safety_score` (searched in the
lowered prompt). -/
def safetyInjectionPatterns : List Re :=
  [ seqL [str "ignore", wsP, str "previous", wsP, str "instructions"],
    seqL [str "forget", wsP, str "everything"],
    seqL [str "new", wsP, str "instructions"],
    seqL [str "system", wsP, str "prompt"],
    str "jailbreak" ]

/-- `_calculate_safety_score`: start at 1.0, subtract 0.2 per harmful
keyword present and 0.3 per injection pattern found, floor at 0. -/
def calculate_safety_score (prompt : List Char) : ℚ :=
  let lp := lower prompt
  let harmful := ["hack", "exploit", "illegal", "harmful", "dangerous",
    "violence", "weapon", "drug", "suicide", "self-harm"]
  let afterKeywords :=
    harmful.foldl (fun (sc : ℚ) w =>
      if containsSub lp w.data then sc - 2/10 else sc) 1
  let afterPatterns :=
    safetyInjectionPatterns.foldl (fun (sc : ℚ) p =>
      if search p lp then sc - 3/10 else sc) afterKeywords
  max 0 afterPatterns

/-- `_has_examples`. -/
def has_examples (prompt : List Char) : Bool :=
  ["example", "for instance", "such as", "like this", "e.g."].any
    (fun w => containsSub (lower prompt) w.data)

/-- `_has_constraints`. -/
def has_constraints (prompt : List Char) : Bool :=
  ["must", "should", "required", "constraint", "limit", "maximum", "minimum"].any
    (fun w => containsSub (lower prompt) w.data)

/-- `_assess_complexity`. -/
def assess_complexity (prompt : List Char) : String :=
  let wc := wordCount prompt
  let ic := count_instructions prompt
  if wc < 20 && ic ≤ 1 then "simple"
  else if wc < 100 && ic ≤ 3 then "moderate"
  else "complex"

/-- Instruction-verb pattern of `_identify_issues`. -/
def issueVerbPattern : Re :=
  wordsB ["please", "write", "generate", "create", "analyze", "explain",
    "describe"]

/-- `_identify_issues`. -/
def identify_issues (prompt : List Char) : List String :=
  let wc := wordCount prompt
  (if wc < 5 then ["Prompt is too short"] else []) ++
  (if wc > 300 then ["Prompt is too long"] else []) ++
  (if !(prompt.any (fun c => isSentencePunct c)) then
    ["No clear sentence structure"] else []) ++
  (if countChar prompt '?' > 5 then ["Too many questions"] else []) ++
  (if !(search issueVerbPattern (lower prompt)) then
    ["No clear instruction verb"] else []) ++
  (if ["thing", "stuff", "something", "anything", "maybe", "perhaps"].any
      (fun w => containsSub (lower prompt) w.data) then
    ["Contains ambiguous language"] else [])

/-- The analysis dictionary.  `readability_score` is computed by the
external `textstat` package (guarded by a catch-all fallback in the
source) and is not consumed by any other component, so it is not carried. -/
structure Analysis where
  token_count : Nat
  word_count : Nat
  character_count : Nat
  sentence_count : Nat
  clarity_score : ℚ
  quality_score : ℚ
  safety_score : ℚ
  instruction_count : Nat
  question_count : Nat
  has_examples : Bool
  has_constraints : Bool
  complexity_level : String
  potential_issues : List String
  deriving DecidableEq, Repr

/-- `analyze_prompt`: assemble the dictionary; the IndexError raised by
`_calculate_quality_score` on the empty prompt propagates out. -/
def analyze_prompt (prompt : List Char) : Except AnalyzerError Analysis := do
  let quality ← calculate_quality_score prompt
  return {
    token_count := estimate_token_count prompt,
    word_count := wordCount prompt,
    character_count := prompt.length,
    sentence_count := sentencePieces prompt,
    clarity_score := calculate_clarity_score prompt,
    quality_score := quality,
    safety_score := calculate_safety_score prompt,
    instruction_count := count_instructions prompt,
    question_count := countChar prompt '?',
    has_examples := has_examples prompt,
    has_constraints := has_constraints prompt,
    complexity_level := assess_complexity prompt,
    potential_issues := identify_issues prompt }

end Analyzer

/-! ## Cost calculator (`utils/cost_calculator.py`) and settings -/

namespace CostCalc

/-- Supported LLM providers (`core/config.py`). -/
inductive LLMProvider where
  | ollama
  | openai
  | bedrock
  | anthropic
  | huggingface
  deriving DecidableEq, Repr

/-- `settings.default_llm_provider`: the configuration default. -/
def default_llm_provider : LLMProvider := .ollama

/-- Python `round(x, 6)` — banker's rounding at six decimal places. -/
def round6 (q : ℚ) : ℚ :=
  let n := q * 1000000
  let f : ℤ := ⌊n⌋
  let frac := n - (f : ℚ)
  let r : ℤ :=
    if frac < 1/2 then f
    else if frac > 1/2 then f + 1
    else if f % 2 = 0 then f else f + 1
  (r : ℚ) / 1000000

/-- The `COST_PER_1K_TOKENS` table: per-model rates for the hosted
providers (Ollama is handled before the table is consulted). -/
def modelRates : LLMProvider → List (String × ℚ)
  | .openai => [("gpt-3.5-turbo", 2/1000), ("gpt-4", 3/100), ("gpt-4-turbo", 1/100)]
  | .anthropic => [("claude-3-sonnet", 15/1000), ("claude-3-haiku", 25/10000),
      ("claude-3-opus", 75/1000)]
  | .bedrock => [("anthropic.claude-v2", 8/1000), ("anthropic.claude-instant-v1", 16/10000)]
  | _ => []

/-- `calculate_cost`: zero for the local provider, otherwise
`(tokens / 1000) * rate` for the requested (or first) model of the
provider, rounded to six decimals; unknown providers cost zero. -/
def calculate_cost (token_count : Nat) (provider : LLMProvider)
    (model : Option String := none) : ℚ :=
  if provider = .ollama then 0
  else
    match modelRates provider with
    | [] => 0
    | (m0, r0) :: restRates =>
      let model_cost := match model with
        | none => r0
        | some m =>
          match ((m0, r0) :: restRates).lookup m with
          | some r => r
          | none => r0
      round6 ((token_count : ℚ) / 1000 * model_cost)

end CostCalc

/-! ## Fitness evaluator (`services/optimization_service.py`,
`PromptOptimizer._evaluate_prompt`) -/

namespace Optimizer

open Guardrails Analyzer CostCalc

/-- A `PromptEvaluation`.  `test_results` is omitted: it is produced only
when live test cases are supplied, by dispatching to the LLM provider
(an external collaborator), and no score depends on it. -/
structure PromptEvaluation where
  prompt : List Char
  cost_score : ℚ
  performance_score : ℚ
  quality_score : ℚ
  safety_score : ℚ
  latency_score : ℚ
  overall_score : ℚ
  token_count : Nat
  estimated_cost : ℚ
  deriving DecidableEq, Repr

/-- `_evaluate_prompt`: guardrail gate, structural analysis, cost, then
the weighted overall score.  The analyzer's IndexError on the empty
prompt propagates. -/
def evaluate_prompt (prompt : List Char) :
    Except AnalyzerError PromptEvaluation := do
  let guardrail_result := Guardrails.validate_prompt prompt
  let guardrail_score : ℚ := if guardrail_result.is_safe then 1 else 0
  let analysis ← analyze_prompt prompt
  let token_count := analysis.token_count
  let estimated_cost := calculate_cost token_count default_llm_provider
  let cost_score : ℚ := max 0 (1 - estimated_cost / (1/100))
  let performance_score := analysis.clarity_score
  let quality_score := analysis.quality_score
  let safety_score := analysis.safety_score
  let latency_score : ℚ := max 0 (1 - (token_count : ℚ) / 2000)
  let overall_score :=
    cost_score * (25/100) + performance_score * (25/100) +
    quality_score * (15/100) + safety_score * (1/10) +
    guardrail_score * (15/100) + latency_score * (1/10)
  return {
    prompt := prompt, cost_score := cost_score,
    performance_score := performance_score, quality_score := quality_score,
    safety_score := safety_score, latency_score := latency_score,
    overall_score := overall_score, token_count := token_count,
    estimated_cost := estimated_cost }

end Optimizer

/-! ## Optimization job submission (`PromptOptimizer.optimize_prompt`) -/

namespace Optimizer

open Guardrails Enhanced

/-- The fields of an `OptimizationRequest` consumed by the embedded
paths (`target_metrics` is only snapshotted into the job row). -/
structure OptimizationRequest where
  prompt : List Char
  target_metrics : List String := ["cost", "performance"]
  max_iterations : Nat := 5
  use_genetic_algorithm : Bool := true
  population_size : Nat := 10
  deriving Repr

/-- The job row written by `optimize_prompt` (the JSON snapshots of the
request and the nullable result columns, all still empty at creation,
are not carried). -/
structure OptimizationJobDB where
  id : String
  original_prompt : List Char
  target_metrics : List String
  max_iterations : Nat
  status : String
  deriving DecidableEq, Repr

/-- `PromptOptimizationError`. -/
structure OptimizationError where
  message : String
  deriving DecidableEq, Repr

/-- `optimize_prompt`: run the enhanced guardrail validation; when the
verdict is unsafe and at least one violation has severity critical or
error, raise before touching the database.  Otherwise create the job row
in status pending (the background task it spawns is the separate driver
and is not part of this synchronous path). `newId` stands for the fresh
`uuid4`. -/
def optimize_prompt (ext : ExtOracle) (newId : String)
    (request : OptimizationRequest) :
    Except OptimizationError OptimizationJobDB :=
  let enhanced_result := Enhanced.validate_prompt ext request.prompt
  let proceed : Except OptimizationError OptimizationJobDB :=
    .ok { id := newId, original_prompt := request.prompt,
          target_metrics := request.target_metrics,
          max_iterations := request.max_iterations,
          status := "pending" }
  if !enhanced_result.is_safe then
    let critical_violations := enhanced_result.violations.filter
      (fun v => v.severity == .critical || v.severity == .error)
    if !critical_violations.isEmpty then
      .error { message := "Prompt failed enhanced guardrail validation: " ++
        toString critical_violations.length ++ " critical violations" }
    else proceed
  else proceed

end Optimizer

/-! ## Variation operators and hill climbing
(`services/optimization_service.py`) -/

namespace Optimizer

open PyRe PyStr

/-- The optimizer's randomness source, abstracted as a stream of natural
numbers with a cursor; each draw models one call into `random`. -/
structure Rng where
  seq : Nat → Nat
  pos : Nat := 0

/-- Draw one number. -/
def Rng.next (r : Rng) : Nat × Rng :=
  (r.seq r.pos, { r with pos := r.pos + 1 })

/-- `random.choice(xs)`: the drawn number selects an index modulo the
list length (`dflt` is never reached on the non-empty lists the source
uses). -/
def choice {α : Type} (xs : List α) (dflt : α) (r : Rng) : α × Rng :=
  let (n, r2) := r.next
  (xs.getD (n % xs.length) dflt, r2)

/-- Swap two positions of a list. -/
def swapAt (l : List (List Char)) (i j : Nat) : List (List Char) :=
  let a := l.getD i []
  let b := l.getD j []
  (l.set i b).set j a

/-- `random.shuffle` (Fisher–Yates, descending), the position drawn from
the abstract stream. -/
def pyShuffleGo (r : Rng) : Nat → List (List Char) → List (List Char) × Rng
  | 0, l => (l, r)
  | i+1, l =>
    let (n, r2) := r.next
    pyShuffleGo r2 i (swapAt l (i+1) (n % (i+2)))

def pyShuffle (l : List (List Char)) (r : Rng) : List (List Char) × Rng :=
  pyShuffleGo r (l.length - 1) l

/-- Python `s.split(sep)` for a non-empty separator: the `skip` counter
drops the remaining separator characters after a hit. -/
def splitOnSubGo (sep : List Char) : List Char → Nat → List (List Char)
  | [], _ => [[]]
  | _ :: rest, skip+1 => splitOnSubGo sep rest skip
  | c :: rest, 0 =>
    if sep.isPrefixOf (c :: rest) then
      [] :: splitOnSubGo sep rest (sep.length - 1)
    else
      match splitOnSubGo sep rest 0 with
      | [] => [[c]]
      | p :: ps => (c :: p) :: ps

def splitOnSub (sep s : List Char) : List (List Char) :=
  splitOnSubGo sep s 0

/-- Python `sep.join(parts)`. -/
def joinSep (sep : List Char) (parts : List (List Char)) : List Char :=
  (parts.intersperse sep).flatten

/-- `_add_clarity_instruction`. -/
def clarity_phrases : List String :=
  ["Please be clear and specific in your response.",
   "Provide a detailed and well-structured answer.",
   "Explain your reasoning step by step.",
   "Be concise but comprehensive.",
   "Use clear and simple language."]

def add_clarity_instruction (prompt : List Char) (r : Rng) : List Char × Rng :=
  let (phrase, r2) := choice clarity_phrases "" r
  (prompt ++ "\n\n".data ++ phrase.data, r2)

/-- `_simplify_language`: replace each verbose word (as `\bword\b`,
case-insensitively) with its shorter synonym. -/
def simplify_replacements : List (String × String) :=
  [("utilize", "use"), ("demonstrate", "show"), ("facilitate", "help"),
   ("implement", "do"), ("subsequently", "then"), ("therefore", "so"),
   ("however", "but"), ("furthermore", "also")]

def simplify_language (prompt : List Char) (r : Rng) : List Char × Rng :=
  (simplify_replacements.foldl
    (fun acc cw => sub (wordB cw.1) (fun _ => cw.2.data) acc) prompt, r)

/-- `_add_context_instruction`. -/
def context_phrases : List String :=
  ["Consider the context carefully before responding.",
   "Take into account all relevant information provided.",
   "Base your answer on the given information.",
   "Consider multiple perspectives when appropriate."]

def add_context_instruction (prompt : List Char) (r : Rng) : List Char × Rng :=
  let (phrase, r2) := choice context_phrases "" r
  (phrase.data ++ "\n\n".data ++ prompt, r2)

/-- `_reorder_instructions`: split on `". "`, shuffle the middle
sentences, keep the first and last in place. -/
def reorder_instructions (prompt : List Char) (r : Rng) : List Char × Rng :=
  let sentences := splitOnSub ". ".data prompt
  if sentences.length > 2 then
    let middle := (sentences.drop 1).take (sentences.length - 2)
    let (shuffled, r2) := pyShuffle middle r
    (joinSep ". ".data
      ([sentences.getD 0 []] ++ shuffled ++ [sentences.getLast? |>.getD []]), r2)
  else (joinSep ". ".data sentences, r)

/-- `_add_output_format`. -/
def format_instructions : List String :=
  ["Format your response as a numbered list.",
   "Provide your answer in bullet points.",
   "Structure your response with clear headings.",
   "Present your answer in a step-by-step format.",
   "Organize your response into clear sections."]

def add_output_format (prompt : List Char) (r : Rng) : List Char × Rng :=
  let (instruction, r2) := choice format_instructions "" r
  (prompt ++ "\n\n".data ++ instruction.data, r2)

/-- The four redundancy patterns `\bw\s+w\b` of `_remove_redundancy`,
in source order. -/
def redundantWords : List String := ["please", "very", "really", "actually"]

def redundantPattern (w : String) : Re :=
  seqL [.bound, str w, wsP, str w, .bound]

/-- `m.group().split()[0]`: the first whitespace-delimited token of the
matched text, case preserved. -/
def firstTokenRepl (m : List Char) : List Char :=
  m.takeWhile (fun c => !isSpaceCh c)

/-- `_remove_redundancy`: collapse each matched duplicated word to its
first occurrence, pattern by pattern. -/
def remove_redundancy (prompt : List Char) : List Char :=
  redundantWords.foldl
    (fun acc w => sub (redundantPattern w) firstTokenRepl acc) prompt

def remove_redundancy_m (prompt : List Char) (r : Rng) : List Char × Rng :=
  (remove_redundancy prompt, r)

/-- `_mutate_prompt`: draw one of the six mutation operators and apply it. -/
def mutations : List (List Char → Rng → List Char × Rng) :=
  [add_clarity_instruction, simplify_language, add_context_instruction,
   reorder_instructions, add_output_format, remove_redundancy_m]

def mutate_prompt (prompt : List Char) (r : Rng) : List Char × Rng :=
  let (m, r2) := choice mutations (fun p rr => (p, rr)) r
  m prompt r2

/-- `_generate_prompt_neighbors`: `count` independent mutations of the
same prompt, threading the randomness source. -/
def generate_prompt_neighbors (prompt : List Char) :
    Nat → Rng → List (List Char) × Rng
  | 0, r => ([], r)
  | n+1, r =>
    let (nb, r2) := mutate_prompt prompt r
    let (rest, r3) := generate_prompt_neighbors prompt n r2
    (nb :: rest, r3)

/-- The inner loop of `_hill_climbing_optimization`: evaluate each
neighbor in turn, keeping the strictly best so far (initialised with the
current candidate, so ties keep the earlier one). -/
def best_neighbor_scan :
    List (List Char) → List Char × PromptEvaluation →
    Except Analyzer.AnalyzerError (List Char × PromptEvaluation)
  | [], best => .ok best
  | n :: rest, best => do
    let ev ← evaluate_prompt n
    if ev.overall_score > best.2.overall_score then
      best_neighbor_scan rest (n, ev)
    else
      best_neighbor_scan rest best

/-- The iteration structure of `_hill_climbing_optimization`: the fuel is
the number of loop iterations still allowed; each iteration draws five
neighbors, adopts the best strictly-improving one, and otherwise stops
returning the current candidate. -/
def hill_climbing_aux :
    Nat → List Char → PromptEvaluation → Rng →
    Except Analyzer.AnalyzerError (List Char × PromptEvaluation)
  | 0, p, e, _ => .ok (p, e)
  | fuel+1, p, e, rng =>
    let (neighbors, rng2) := generate_prompt_neighbors p 5 rng
    (best_neighbor_scan neighbors (p, e)).bind (fun best =>
      if best.2.overall_score > e.overall_score then
        hill_climbing_aux fuel best.1 best.2 rng2
      else
        .ok (p, e))

/-- `_hill_climbing_optimization`. -/
def hill_climbing_optimization (original_prompt : List Char)
    (request : OptimizationRequest) (original_evaluation : PromptEvaluation)
    (rng : Rng) :
    Except Analyzer.AnalyzerError (List Char × PromptEvaluation) :=
  hill_climbing_aux request.max_iterations original_prompt
    original_evaluation rng

end Optimizer

/-! ## Helper lemmas about the injection detector -/

namespace InjectionDetector

theorem threatWeight_nonneg (t : ThreatLevel) : 0 ≤ threatWeight t := by
  cases t <;> norm_num [threatWeight]

theorem threatWeight_le_one (t : ThreatLevel) : threatWeight t ≤ 1 := by
  cases t <;> norm_num [threatWeight]

theorem threatWeight_ge_of_ne_low (t : ThreatLevel) (h : t ≠ .low) :
    3/10 ≤ threatWeight t := by
  cases t
  · exact absurd rfl h
  · norm_num [threatWeight]
  · norm_num [threatWeight]
  · norm_num [threatWeight]

/-- Weight sums over detection lists are at most one per record. -/
theorem weightSum_le_length (l : List Detection) :
    (l.map fun d => threatWeight d.threat_level).sum ≤ (l.length : ℚ) := by
  induction l with
  | nil => simp
  | cons d rest ih =>
    simp only [List.map_cons, List.sum_cons, List.length_cons]
    push_cast
    have := threatWeight_le_one d.threat_level
    linarith

theorem weightSum_nonneg (l : List Detection) :
    0 ≤ (l.map fun d => threatWeight d.threat_level).sum := by
  induction l with
  | nil => simp
  | cons d rest ih =>
    simp only [List.map_cons, List.sum_cons]
    have := threatWeight_nonneg d.threat_level
    linarith

theorem weightSum_ge_of_ne_low (l : List Detection)
    (h : ∀ d ∈ l, d.threat_level ≠ .low) :
    (3/10 : ℚ) * l.length ≤ (l.map fun d => threatWeight d.threat_level).sum := by
  induction l with
  | nil => simp
  | cons d rest ih =>
    simp only [List.map_cons, List.sum_cons, List.length_cons]
    have hd := threatWeight_ge_of_ne_low d.threat_level (h d (List.mem_cons_self d rest))
    have hr := ih (fun x hx => h x (List.mem_cons_of_mem d hx))
    push_cast
    linarith

/-- Every record produced by a pattern-category check carries that
category's fixed threat level. -/
theorem checkPatterns_threat_level {pats : List PyRe.Re} {ty : InjectionType}
    {lvl : ThreatLevel} {descr : String} {p : List Char} {d : Detection}
    (h : d ∈ checkPatterns pats ty lvl descr p) : d.threat_level = lvl := by
  simp only [checkPatterns, List.mem_flatMap, List.mem_map] at h
  obtain ⟨pat, _, m, _, rfl⟩ := h
  rfl

/-- Suspicious-keyword records are always MEDIUM. -/
theorem check_suspicious_keywords_threat_level {p : List Char} {d : Detection}
    (h : d ∈ check_suspicious_keywords p) : d.threat_level = .medium := by
  simp only [check_suspicious_keywords, List.mem_flatMap] at h
  obtain ⟨kw, _, hm⟩ := h
  by_cases hs : PyRe.search (PyRe.wordB kw) p
  · simp [hs] at hm
    subst hm
    rfl
  · simp [hs] at hm

/-- The concatenated detection list of `detect_injection`. -/
def allDetections (p : List Char) : List Detection :=
  check_instruction_override p ++ check_context_switching p ++
  check_role_playing p ++ check_system_leak p ++
  check_jailbreak p ++ check_data_extraction p ++
  check_malicious_code p ++ check_suspicious_keywords p

theorem detect_injection_detections (p : List Char) :
    (detect_injection p).detections = allDetections p := rfl

/-- No category ever emits a LOW-level record. -/
theorem allDetections_ne_low (p : List Char) :
    ∀ d ∈ allDetections p, d.threat_level ≠ .low := by
  intro d hd
  simp only [allDetections, List.mem_append] at hd
  rcases hd with ((((((h | h) | h) | h) | h) | h) | h) | h
  · rw [checkPatterns_threat_level h]; intro hc; cases hc
  · rw [checkPatterns_threat_level h]; intro hc; cases hc
  · rw [checkPatterns_threat_level h]; intro hc; cases hc
  · rw [checkPatterns_threat_level h]; intro hc; cases hc
  · rw [checkPatterns_threat_level h]; intro hc; cases hc
  · rw [checkPatterns_threat_level h]; intro hc; cases hc
  · rw [checkPatterns_threat_level h]; intro hc; cases hc
  · rw [check_suspicious_keywords_threat_level h]; intro hc; cases hc

end InjectionDetector

/-! ## Claim theorems -/

open InjectionDetector in
/-- Claim C3 (code_bug): the specification says `analyze` on the empty
prompt returns a result with all counts zero; the code instead raises
IndexError (from `prompt[0]` in `_calculate_quality_score`), and even
apart from the crash `len(re.split(r'[.!?]+', ""))` is 1, so the
sentence count could never be 0. -/
theorem C3_empty_prompt_analyze_raises :
    Analyzer.analyze_prompt [] = .error .indexError ∧
    PyStr.sentencePieces [] = 1 ∧
    PyStr.wordCount [] = 0 := by
  refine ⟨rfl, rfl, rfl⟩

open InjectionDetector in
/-- Claim C5 (confirmed): the detector's risk score is 0 without
detections and otherwise `min 1 (Σ weight / N)` with weights
LOW↦0.1, MEDIUM↦0.3, HIGH↦0.7, CRITICAL↦1.0 (the `threatWeight` table),
and it always lies in [0, 1]. -/
theorem C5_risk_score_formula (p : List Char) :
    ((detect_injection p).detections = [] → (detect_injection p).risk_score = 0) ∧
    ((detect_injection p).detections ≠ [] →
      (detect_injection p).risk_score =
        min 1 (((detect_injection p).detections.map
            (fun d => threatWeight d.threat_level)).sum /
          ((detect_injection p).detections.length : ℚ))) ∧
    0 ≤ (detect_injection p).risk_score ∧
    (detect_injection p).risk_score ≤ 1 := by
  have hrisk : (detect_injection p).risk_score =
      calculate_risk_score (allDetections p) := rfl
  have hdet := detect_injection_detections p
  refine ⟨?_, ?_, ?_, ?_⟩
  · intro h
    rw [hrisk, calculate_risk_score]
    rw [hdet] at h
    simp [h]
  · intro h
    rw [hdet] at h
    rw [hrisk, hdet, calculate_risk_score, if_neg (by simpa using h)]
  · rw [hrisk, calculate_risk_score]
    by_cases h : (allDetections p).isEmpty
    · simp [h]
    · rw [if_neg h]
      have hlen : 0 < ((allDetections p).length : ℚ) := by
        have : allDetections p ≠ [] := by simpa using h
        have : 0 < (allDetections p).length := List.length_pos.mpr this
        exact_mod_cast this
      have hnum := weightSum_nonneg (allDetections p)
      have : 0 ≤ ((allDetections p).map
          (fun d => threatWeight d.threat_level)).sum /
          ((allDetections p).length : ℚ) := div_nonneg hnum (le_of_lt hlen)
      exact le_min (by norm_num) this
  · rw [hrisk, calculate_risk_score]
    by_cases h : (allDetections p).isEmpty
    · simp [h]
    · rw [if_neg h]
      exact min_le_left _ _

/-- Claim C5 witness: at the concrete prompt `"jailbreak"` the detector
finds one CRITICAL record and the formula yields risk 1. -/
theorem C5_risk_score_formula_witness :
    (InjectionDetector.detect_injection "jailbreak".data).detections ≠ [] ∧
    (InjectionDetector.detect_injection "jailbreak".data).risk_score =
      min 1 (((InjectionDetector.detect_injection "jailbreak".data).detections.map
          (fun d => InjectionDetector.threatWeight d.threat_level)).sum /
        (((InjectionDetector.detect_injection "jailbreak".data).detections.length : ℚ))) := by
  refine ⟨by decide, (C5_risk_score_formula "jailbreak".data).2.1 (by decide)⟩

namespace InjectionDetector

theorem detect_injection_is_injection (p : List Char) :
    (detect_injection p).is_injection = !(allDetections p).isEmpty := rfl

theorem detect_injection_threat_level_eq (p : List Char) :
    (detect_injection p).threat_level =
      (if (allDetections p).isEmpty then ThreatLevel.low
       else if ((allDetections p).map (·.threat_level)).contains .critical then .critical
       else if ((allDetections p).map (·.threat_level)).contains .high then .high
       else if ((allDetections p).map (·.threat_level)).contains .medium then .medium
       else .low) := rfl

end InjectionDetector

open InjectionDetector in
/-- Claim C10 (confirmed): every emitted detection record is at least
MEDIUM, the aggregate threat level is LOW exactly when no detection was
made, and a positive injection verdict forces a risk score of at least
0.3. -/
theorem C10_detection_levels_invariant (p : List Char) :
    (∀ d ∈ (detect_injection p).detections, d.threat_level ≠ .low) ∧
    ((detect_injection p).threat_level = .low ↔
      (detect_injection p).detections = []) ∧
    ((detect_injection p).is_injection = true →
      3/10 ≤ (detect_injection p).risk_score) := by
  have hne := allDetections_ne_low p
  refine ⟨?_, ?_, ?_⟩
  · rw [detect_injection_detections]
    exact hne
  · rw [detect_injection_threat_level_eq, detect_injection_detections]
    constructor
    · intro h
      by_contra hnil
      have hE : (allDetections p).isEmpty = false := by
        simpa using hnil
      rw [hE] at h
      simp only [Bool.false_eq_true, if_false] at h
      obtain ⟨d0, hd0⟩ := List.exists_mem_of_ne_nil _ hnil
      have hlvl := hne d0 hd0
      have hmem : d0.threat_level ∈ (allDetections p).map (·.threat_level) :=
        List.mem_map.mpr ⟨d0, hd0, rfl⟩
      by_cases h1 : ((allDetections p).map (·.threat_level)).contains ThreatLevel.critical = true
      · rw [if_pos h1] at h
        cases h
      · rw [if_neg h1] at h
        by_cases h2 : ((allDetections p).map (·.threat_level)).contains ThreatLevel.high = true
        · rw [if_pos h2] at h
          cases h
        · rw [if_neg h2] at h
          by_cases h3 : ((allDetections p).map (·.threat_level)).contains ThreatLevel.medium = true
          · rw [if_pos h3] at h
            cases h
          · cases hcase : d0.threat_level with
            | low => exact hlvl hcase
            | medium =>
              rw [hcase] at hmem
              exact h3 (List.elem_iff.mpr hmem)
            | high =>
              rw [hcase] at hmem
              exact h2 (List.elem_iff.mpr hmem)
            | critical =>
              rw [hcase] at hmem
              exact h1 (List.elem_iff.mpr hmem)
    · intro h
      simp [h]
  · intro h
    rw [detect_injection_is_injection] at h
    have hnil : allDetections p ≠ [] := by
      intro hc
      rw [hc] at h
      simp at h
    have hrisk : (detect_injection p).risk_score =
        calculate_risk_score (allDetections p) := rfl
    rw [hrisk, calculate_risk_score, if_neg (by simpa using hnil)]
    have hlen : 0 < ((allDetections p).length : ℚ) := by
      have : 0 < (allDetections p).length := List.length_pos.mpr hnil
      exact_mod_cast this
    have hsum := weightSum_ge_of_ne_low (allDetections p) hne
    refine le_min (by norm_num) ?_
    rw [le_div_iff₀ hlen]
    linarith

/-- Claim C10 witness: at `"dan mode"` the detector fires (one CRITICAL
jailbreak record), so the risk score is at least 0.3. -/
theorem C10_detection_levels_witness :
    (InjectionDetector.detect_injection "dan mode".data).is_injection = true ∧
    3/10 ≤ (InjectionDetector.detect_injection "dan mode".data).risk_score := by
  refine ⟨by decide, (C10_detection_levels_invariant "dan mode".data).2.2 (by decide)⟩

open InjectionDetector in
/-- Claim C4 (confirmed): the injection detector's `validate_prompt`
raises `PromptInjectionDetected` exactly when a detection exists and
(strict mode is on or the overall threat level is HIGH or CRITICAL), and
returns `True` otherwise. -/
theorem C4_injection_validate_iff (p : List Char) (strict : Bool) :
    (validate_prompt p strict = .error (detect_injection p) ↔
      ((detect_injection p).detections ≠ [] ∧
        (strict = true ∨ (detect_injection p).threat_level = .high ∨
          (detect_injection p).threat_level = .critical))) ∧
    (validate_prompt p strict = .ok true ↔
      ¬((detect_injection p).detections ≠ [] ∧
        (strict = true ∨ (detect_injection p).threat_level = .high ∨
          (detect_injection p).threat_level = .critical))) := by
  have hcond : ((detect_injection p).is_injection &&
      (strict || ((detect_injection p).threat_level == .high ||
        (detect_injection p).threat_level == .critical))) = true ↔
      ((detect_injection p).detections ≠ [] ∧
        (strict = true ∨ (detect_injection p).threat_level = .high ∨
          (detect_injection p).threat_level = .critical)) := by
    rw [detect_injection_is_injection, detect_injection_detections]
    simp [List.isEmpty_iff]
  have hval : validate_prompt p strict =
      (if ((detect_injection p).is_injection &&
        (strict || ((detect_injection p).threat_level == .high ||
          (detect_injection p).threat_level == .critical))) = true
       then .error (detect_injection p) else .ok true) := rfl
  by_cases hb : ((detect_injection p).is_injection &&
      (strict || ((detect_injection p).threat_level == .high ||
        (detect_injection p).threat_level == .critical))) = true
  · have herr : validate_prompt p strict = .error (detect_injection p) := by
      rw [hval, if_pos hb]
    have hr := hcond.mp hb
    refine ⟨⟨fun _ => hr, fun _ => herr⟩, ⟨fun he => ?_, fun hc => absurd hr hc⟩⟩
    rw [herr] at he
    exact Except.noConfusion he
  · have hok : validate_prompt p strict = .ok true := by
      rw [hval, if_neg hb]
    have hnot : ¬((detect_injection p).detections ≠ [] ∧
        (strict = true ∨ (detect_injection p).threat_level = .high ∨
          (detect_injection p).threat_level = .critical)) :=
      fun hr => hb (hcond.mpr hr)
    refine ⟨⟨fun he => ?_, fun hr => absurd hr hnot⟩, ⟨fun _ => hnot, fun _ => hok⟩⟩
    rw [hok] at he
    exact Except.noConfusion he

/-- Claim C4 witness: `"scam"` yields a MEDIUM keyword detection, so
strict validation raises while non-strict validation returns `True`. -/
theorem C4_injection_validate_witness :
    InjectionDetector.validate_prompt "scam".data true =
      .error (InjectionDetector.detect_injection "scam".data) ∧
    InjectionDetector.validate_prompt "scam".data false = .ok true := by
  refine ⟨(C4_injection_validate_iff "scam".data true).1.mpr ⟨by decide, Or.inl rfl⟩,
    (C4_injection_validate_iff "scam".data false).2.mpr ?_⟩
  intro hc
  rcases hc with ⟨_, h | h | h⟩
  · cases h
  · revert h; decide
  · revert h; decide

open Enhanced in
/-- Claim C7 (confirmed): `validate_optimization_request` derives
`safety_maintained` as the boolean comparison `optimized.is_safe ≥
original.is_safe`, `quality_improved` as the comparison of violation
counts, and `optimization_safe` as their conjunction with the optimized
verdict, both verdicts coming from the facade's `validate_prompt`. -/
theorem C7_validate_optimization_request_fields (ext : ExtOracle)
    (original optimized : List Char) :
    (validate_optimization_request ext original optimized).original_validation =
      validate_prompt ext original ∧
    (validate_optimization_request ext original optimized).optimized_validation =
      validate_prompt ext optimized ∧
    (validate_optimization_request ext original optimized).safety_maintained =
      decide ((validate_prompt ext original).is_safe ≤
        (validate_prompt ext optimized).is_safe) ∧
    (validate_optimization_request ext original optimized).quality_improved =
      decide ((validate_prompt ext optimized).violations.length ≤
        (validate_prompt ext original).violations.length) ∧
    (validate_optimization_request ext original optimized).optimization_safe =
      ((validate_optimization_request ext original optimized).safety_maintained &&
        (validate_prompt ext optimized).is_safe) := by
  refine ⟨rfl, rfl, ?_, ?_, ?_⟩ <;>
    simp only [validate_optimization_request]

namespace Analyzer

/-- Inverting a successful analysis: the fields other than the quality
score are computed by the corresponding helpers. -/
theorem analyze_prompt_ok_fields {p : List Char} {a : Analysis}
    (h : analyze_prompt p = .ok a) :
    a.clarity_score = calculate_clarity_score p ∧
    a.token_count = estimate_token_count p ∧
    a.safety_score = calculate_safety_score p ∧
    a.potential_issues = identify_issues p := by
  cases hq : calculate_quality_score p with
  | error e =>
    rw [analyze_prompt, hq] at h
    cases h
  | ok q =>
    rw [analyze_prompt, hq] at h
    cases h
    exact ⟨rfl, rfl, rfl, rfl⟩

end Analyzer
/-- Equality of `Except` values is decidable when both components are. -/
instance {ε α : Type} [DecidableEq ε] [DecidableEq α] :
    DecidableEq (Except ε α) := fun x y =>
  match x, y with
  | .error a, .error b => decidable_of_iff (a = b) (by simp)
  | .ok a, .ok b => decidable_of_iff (a = b) (by simp)
  | .error _, .ok _ => isFalse (by simp)
  | .ok _, .error _ => isFalse (by simp)

namespace Optimizer

/-- The evaluation record `_evaluate_prompt` assembles once the analysis
of the prompt is available (used to invert `evaluate_prompt`). -/
def evalFromAnalysis (p : List Char) (a : Analyzer.Analysis) : PromptEvaluation :=
  let guardrail_score : ℚ := if (Guardrails.validate_prompt p).is_safe then 1 else 0
  let estimated_cost := CostCalc.calculate_cost a.token_count CostCalc.default_llm_provider
  let cost_score : ℚ := max 0 (1 - estimated_cost / (1/100))
  let latency_score : ℚ := max 0 (1 - (a.token_count : ℚ) / 2000)
  { prompt := p,
    cost_score := cost_score,
    performance_score := a.clarity_score,
    quality_score := a.quality_score,
    safety_score := a.safety_score,
    latency_score := latency_score,
    overall_score :=
      cost_score * (25/100) + a.clarity_score * (25/100) +
        a.quality_score * (15/100) + a.safety_score * (1/10) +
        guardrail_score * (15/100) + latency_score * (1/10),
    token_count := a.token_count,
    estimated_cost := estimated_cost }

/-- Inverting a successful evaluation: the record is built from the
analysis of the prompt. -/
theorem evaluate_prompt_ok {p : List Char} {ev : PromptEvaluation}
    (h : evaluate_prompt p = .ok ev) :
    ∃ a, Analyzer.analyze_prompt p = .ok a ∧ ev = evalFromAnalysis p a := by
  cases ha : Analyzer.analyze_prompt p with
  | error e =>
    rw [evaluate_prompt, ha] at h
    cases h
  | ok a =>
    rw [evaluate_prompt, ha] at h
    cases h
    exact ⟨a, rfl, rfl⟩

end Optimizer

open Optimizer in
/-- Claim C2 (confirmed): every successfully produced evaluation has
`overall = 0.25·cost + 0.25·performance + 0.15·quality + 0.10·safety +
0.15·guardrail + 0.10·latency`, where the cost score is
`max(0, 1 − estimated_cost/0.01)`, the performance score is the
analyzer's clarity score, the guardrail score is 1 exactly when the
guardrail verdict is safe, and the latency score is
`max(0, 1 − token_count/2000)`. -/
theorem C2_evaluation_weighted_overall (p : List Char) (ev : PromptEvaluation)
    (h : evaluate_prompt p = .ok ev) :
    ev.overall_score =
      ev.cost_score * (25/100) + ev.performance_score * (25/100) +
      ev.quality_score * (15/100) + ev.safety_score * (1/10) +
      (if (Guardrails.validate_prompt p).is_safe then (1:ℚ) else 0) * (15/100) +
      ev.latency_score * (1/10) ∧
    ev.cost_score = max 0 (1 - ev.estimated_cost / (1/100)) ∧
    ev.performance_score = Analyzer.calculate_clarity_score p ∧
    ev.latency_score = max 0 (1 - (ev.token_count : ℚ) / 2000) := by
  obtain ⟨a, ha, rfl⟩ := evaluate_prompt_ok h
  obtain ⟨hc, -, -, -⟩ := Analyzer.analyze_prompt_ok_fields ha
  refine ⟨rfl, rfl, ?_, rfl⟩
  show a.clarity_score = Analyzer.calculate_clarity_score p
  exact hc

/-- Claim C2 witness: the evaluation of the concrete prompt `"hi"`
satisfies the weighted-sum equation with its concrete scores. -/
theorem C2_evaluation_weighted_overall_witness :
    Optimizer.evaluate_prompt "hi".data =
      .ok { prompt := "hi".data, cost_score := 1, performance_score := 1/2,
            quality_score := 1/2, safety_score := 1, latency_score := 1,
            overall_score := 4/5, token_count := 0, estimated_cost := 0 } ∧
    (4/5 : ℚ) =
      1 * (25/100) + (1/2) * (25/100) + (1/2) * (15/100) + 1 * (1/10) +
      (if (Guardrails.validate_prompt "hi".data).is_safe then (1:ℚ) else 0) * (15/100) +
      1 * (1/10) := by
  have hok : Optimizer.evaluate_prompt "hi".data =
      .ok { prompt := "hi".data, cost_score := 1, performance_score := 1/2,
            quality_score := 1/2, safety_score := 1, latency_score := 1,
            overall_score := 4/5, token_count := 0, estimated_cost := 0 } := by
    with_unfolding_all decide
  have h := (C2_evaluation_weighted_overall "hi".data
    { prompt := "hi".data, cost_score := 1, performance_score := 1/2,
      quality_score := 1/2, safety_score := 1, latency_score := 1,
      overall_score := 4/5, token_count := 0, estimated_cost := 0 } hok).1
  exact ⟨hok, by simpa using h⟩

/-- Claim C1 counterexample: the prompt `"password"` produces two
ERROR-severity violations (privacy rule) and no CRITICAL one under the
enhanced guardrail check, yet `optimize_prompt` does not fail — it
creates the pending job row — because the code only rejects when
`is_safe` is false, and non-strict `is_safe` ignores ERROR violations. -/
theorem C1_counterexample_error_only_prompt_accepted :
    ((Enhanced.validate_prompt none "password".data).violations.filter
      (fun v => v.severity == Guardrails.Severity.critical ||
        v.severity == Guardrails.Severity.error)) ≠ [] ∧
    Optimizer.optimize_prompt none "job-1" { prompt := "password".data } =
      .ok { id := "job-1", original_prompt := "password".data,
            target_metrics := ["cost", "performance"], max_iterations := 5,
            status := "pending" } := by
  refine ⟨by decide, by decide⟩

namespace Guardrails

/-- With `strict_mode = False` the custom verdict is safe exactly when no
CRITICAL violation was recorded. -/
theorem validate_prompt_is_safe_eq (p : List Char) :
    (validate_prompt p false).is_safe =
      ((validate_prompt p false).violations.filter
        (fun v => v.severity == Severity.critical)).isEmpty := by
  have h : (validate_prompt p false).is_safe =
      (((validate_prompt p false).violations.filter
        (fun v => v.severity == Severity.critical)).isEmpty && true) := rfl
  rw [h, Bool.and_true]

end Guardrails

namespace Enhanced

theorem validate_prompt_is_safe (ext : ExtOracle) (p : List Char) :
    (validate_prompt ext p).is_safe =
      ((Guardrails.validate_prompt p false).is_safe &&
        (match ext with | none => true | some f => (f p).passed)) := by
  cases ext <;> rfl

theorem validate_prompt_violations (ext : ExtOracle) (p : List Char) :
    (validate_prompt ext p).violations =
      (Guardrails.validate_prompt p false).violations.map violation_to_dict ++
        (match ext with
         | none => []
         | some f => if !(f p).passed then [externalViolation (f p)] else []) := by
  cases ext <;> rfl

/-- Whenever the combined verdict is unsafe, its violation list contains
at least one CRITICAL-or-ERROR entry, so the inner guard of
`optimize_prompt` can never accept an unsafe prompt. -/
theorem unsafe_filter_ne_nil (ext : ExtOracle) (p : List Char)
    (h : (validate_prompt ext p).is_safe = false) :
    ((validate_prompt ext p).violations.filter
      (fun v => v.severity == Guardrails.Severity.critical ||
        v.severity == Guardrails.Severity.error)) ≠ [] := by
  rw [validate_prompt_is_safe] at h
  rw [validate_prompt_violations]
  cases hcust : (Guardrails.validate_prompt p false).is_safe with
  | false =>
    rw [Guardrails.validate_prompt_is_safe_eq] at hcust
    have hne : ((Guardrails.validate_prompt p false).violations.filter
        (fun v => v.severity == Guardrails.Severity.critical)) ≠ [] := by
      intro hc
      rw [hc] at hcust
      cases hcust
    obtain ⟨v, hv⟩ := List.exists_mem_of_ne_nil _ hne
    have hvmem := (List.mem_filter.mp hv).1
    have hvcrit := (List.mem_filter.mp hv).2
    apply List.ne_nil_of_mem (a := violation_to_dict v)
    refine List.mem_filter.mpr ⟨List.mem_append_left _ (List.mem_map.mpr ⟨v, hvmem, rfl⟩), ?_⟩
    have : (violation_to_dict v).severity = v.severity := rfl
    rw [this, hvcrit]
    rfl
  | true =>
    rw [hcust, Bool.true_and] at h
    cases ext with
    | none => cases h
    | some f =>
      have h2 : (f p).passed = false := h
      apply List.ne_nil_of_mem (a := externalViolation (f p))
      refine List.mem_filter.mpr ⟨List.mem_append_right _ ?_, rfl⟩
      simp [h2]

end Enhanced

namespace Optimizer

open Enhanced

/-- A safe combined verdict lets `optimize_prompt` create the pending row. -/
theorem optimize_prompt_ok_of_safe (ext : ExtOracle) (newId : String)
    (req : OptimizationRequest)
    (hsafe : (Enhanced.validate_prompt ext req.prompt).is_safe = true) :
    optimize_prompt ext newId req =
      .ok { id := newId, original_prompt := req.prompt,
            target_metrics := req.target_metrics,
            max_iterations := req.max_iterations,
            status := "pending" } := by
  simp only [optimize_prompt, hsafe, Bool.not_true, Bool.false_eq_true, if_false]

/-- An unsafe combined verdict always raises (the critical-or-error
filter is never empty there). -/
theorem optimize_prompt_none_of_unsafe (ext : ExtOracle) (newId : String)
    (req : OptimizationRequest)
    (hsafe : (Enhanced.validate_prompt ext req.prompt).is_safe = false) :
    (optimize_prompt ext newId req).toOption = none := by
  have hne := Enhanced.unsafe_filter_ne_nil ext req.prompt hsafe
  simp only [optimize_prompt, hsafe, Bool.not_false, if_true]
  rw [if_pos (by simpa using hne)]
  rfl

end Optimizer

open Optimizer Enhanced in
/-- Claim C1 (corrected): submission fails synchronously — before any job
row is created — if and only if the external validator (when configured)
rejects the prompt or the custom guardrail verdict records at least one
CRITICAL violation; prompts whose critical-or-error violations are all
of severity ERROR are accepted into a pending job row. -/
theorem C1_submit_rejects_iff_critical_or_external (ext : ExtOracle)
    (newId : String) (req : OptimizationRequest) :
    ((optimize_prompt ext newId req).toOption = none ↔
      ((match ext with
        | none => False
        | some f => (f req.prompt).passed = false) ∨
        ((Guardrails.validate_prompt req.prompt false).violations.filter
          (fun v => v.severity == Guardrails.Severity.critical)) ≠ [])) ∧
    (∀ job, optimize_prompt ext newId req = .ok job →
      job.status = "pending" ∧ job.original_prompt = req.prompt ∧
        job.id = newId) := by
  cases ext with
  | none =>
    have hsplit := Enhanced.validate_prompt_is_safe none req.prompt
    rw [Bool.and_true] at hsplit
    cases hsafe : (Enhanced.validate_prompt none req.prompt).is_safe with
    | true =>
      have hok := optimize_prompt_ok_of_safe none newId req hsafe
      have hcust : (Guardrails.validate_prompt req.prompt false).is_safe = true := by
        rw [← hsplit, hsafe]
      refine ⟨?_, ?_⟩
      · rw [hok]
        refine ⟨fun hc => ?_, fun hc => ?_⟩
        · cases hc
        · exfalso
          rcases hc with hc | hc
          · exact hc
          · rw [Guardrails.validate_prompt_is_safe_eq] at hcust
            exact hc (List.isEmpty_iff.mp hcust)
      · intro job hjob
        rw [hok] at hjob
        cases hjob
        exact ⟨rfl, rfl, rfl⟩
    | false =>
      have hnone := optimize_prompt_none_of_unsafe none newId req hsafe
      refine ⟨⟨fun _ => Or.inr ?_, fun _ => hnone⟩, ?_⟩
      · have hcust : (Guardrails.validate_prompt req.prompt false).is_safe = false := by
          rw [← hsplit, hsafe]
        rw [Guardrails.validate_prompt_is_safe_eq] at hcust
        intro hc
        rw [hc] at hcust
        cases hcust
      · intro job hjob
        rw [hjob] at hnone
        cases hnone
  | some f =>
    have hsplit := Enhanced.validate_prompt_is_safe (some f) req.prompt
    cases hsafe : (Enhanced.validate_prompt (some f) req.prompt).is_safe with
    | true =>
      have hok := optimize_prompt_ok_of_safe (some f) newId req hsafe
      rw [hsafe] at hsplit
      have hcust : (Guardrails.validate_prompt req.prompt false).is_safe = true := by
        cases hc : (Guardrails.validate_prompt req.prompt false).is_safe
        · rw [hc, Bool.false_and] at hsplit
          cases hsplit
        · rfl
      have hpassed : (f req.prompt).passed = true := by
        rw [hcust, Bool.true_and] at hsplit
        exact hsplit.symm
      refine ⟨?_, ?_⟩
      · rw [hok]
        refine ⟨fun hc => ?_, fun hc => ?_⟩
        · cases hc
        · exfalso
          rcases hc with hc | hc
          · have hcf : (f req.prompt).passed = false := hc
            rw [hcf] at hpassed
            cases hpassed
          · rw [Guardrails.validate_prompt_is_safe_eq] at hcust
            exact hc (List.isEmpty_iff.mp hcust)
      · intro job hjob
        rw [hok] at hjob
        cases hjob
        exact ⟨rfl, rfl, rfl⟩
    | false =>
      have hnone := optimize_prompt_none_of_unsafe (some f) newId req hsafe
      rw [hsafe] at hsplit
      refine ⟨⟨fun _ => ?_, fun _ => hnone⟩, ?_⟩
      · cases hcust : (Guardrails.validate_prompt req.prompt false).is_safe with
        | false =>
          refine Or.inr ?_
          rw [Guardrails.validate_prompt_is_safe_eq] at hcust
          intro hc
          rw [hc] at hcust
          cases hcust
        | true =>
          refine Or.inl ?_
          rw [hcust, Bool.true_and] at hsplit
          exact hsplit.symm
      · intro job hjob
        rw [hjob] at hnone
        cases hnone

/-- Claim C1 witness (for the amended statement): the prompt `"kill"`
carries a CRITICAL harmful-content violation, so submission is refused
and no job value is produced. -/
theorem C1_submit_rejects_witness :
    ((Guardrails.validate_prompt "kill".data false).violations.filter
      (fun v => v.severity == Guardrails.Severity.critical)) ≠ [] ∧
    (Optimizer.optimize_prompt none "job-2"
      { prompt := "kill".data }).toOption = none := by
  refine ⟨by decide, (C1_submit_rejects_iff_critical_or_external none "job-2"
    { prompt := "kill".data }).1.mpr (Or.inr (by decide))⟩

/-- A prompt of exactly 300 words (`"a"` repeated, space separated). -/
def w300 : List Char := (List.replicate 299 "a ".data).flatten ++ "a".data

/-- A prompt of 301 words. -/
def w301 : List Char := (List.replicate 300 "a ".data).flatten ++ "a".data

set_option maxRecDepth 200000 in
/-- Claim C9 counterexample: at exactly 300 words the analyzer does not
report the too-long issue, because `_identify_issues` tests
`len(prompt.split()) > 300` strictly. -/
theorem C9_counterexample_exact_300_words :
    PyStr.wordCount w300 = 300 ∧
    Analyzer.identify_issues w300 =
      ["No clear sentence structure", "No clear instruction verb"] ∧
    ¬ "Prompt is too long" ∈ Analyzer.identify_issues w300 := by
  refine ⟨by decide, by decide, by decide⟩

/-- Claim C9 (corrected): the too-long issue appears exactly when the
word count strictly exceeds 300, and a successful `analyze_prompt`
reports exactly the `_identify_issues` list. -/
theorem C9_too_long_strictly_above_300 (p : List Char)
    (h : 300 < PyStr.wordCount p) :
    "Prompt is too long" ∈ Analyzer.identify_issues p ∧
    ∀ a, Analyzer.analyze_prompt p = .ok a →
      a.potential_issues = Analyzer.identify_issues p := by
  constructor
  · rw [Analyzer.identify_issues]
    refine List.mem_append_left _ (List.mem_append_left _ (List.mem_append_left _
      (List.mem_append_left _ (List.mem_append_right _ ?_))))
    rw [if_pos h]
    exact List.mem_singleton.mpr rfl
  · intro a ha
    exact (Analyzer.analyze_prompt_ok_fields ha).2.2.2

set_option maxRecDepth 200000 in
/-- Claim C9 witness (for the amended statement): 301 words trigger the
too-long issue. -/
theorem C9_too_long_witness :
    300 < PyStr.wordCount w301 ∧
    "Prompt is too long" ∈ Analyzer.identify_issues w301 := by
  refine ⟨by decide, (C9_too_long_strictly_above_300 w301 (by decide)).1⟩

/-- Claim C8 counterexample: `remove_redundancy` is not idempotent — a
triple `"very very very"` collapses to `"very very"` (the regex consumes
non-overlapping pairs left to right), and only a second application
reaches `"very"`. -/
theorem C8_counterexample_triple_very :
    Optimizer.remove_redundancy "very very very".data = "very very".data ∧
    Optimizer.remove_redundancy (Optimizer.remove_redundancy "very very very".data) ≠
      Optimizer.remove_redundancy "very very very".data := by
  refine ⟨by decide, by decide⟩

/-- A run of `n` occurrences of "very" separated by single spaces. -/
def veryRun : Nat → List Char
  | 0 => []
  | 1 => "very".data
  | n+2 => "very ".data ++ veryRun (n+1)

namespace Optimizer

open PyRe

/-- The "please" pattern never matches inside a "very" run: the scanner
copies one run element at a time (each head position fails the word
boundary or the first literal, definitionally). -/
theorem subGo_please_run : ∀ n,
    subGo (redundantPattern "please") firstTokenRepl (veryRun n) false 0 = veryRun n := by
  intro n
  induction n using Nat.strong_induction_on with
  | _ n ih =>
    match n with
    | 0 => rfl
    | 1 => rfl
    | m+2 =>
      have step : subGo (redundantPattern "please") firstTokenRepl
          (veryRun (m+2)) false 0 =
          'v' :: 'e' :: 'r' :: 'y' :: ' ' ::
            subGo (redundantPattern "please") firstTokenRepl (veryRun (m+1)) false 0 := rfl
      rw [step, ih (m+1) (by omega)]
      rfl

/-- Same for the "really" pattern. -/
theorem subGo_really_run : ∀ n,
    subGo (redundantPattern "really") firstTokenRepl (veryRun n) false 0 = veryRun n := by
  intro n
  induction n using Nat.strong_induction_on with
  | _ n ih =>
    match n with
    | 0 => rfl
    | 1 => rfl
    | m+2 =>
      have step : subGo (redundantPattern "really") firstTokenRepl
          (veryRun (m+2)) false 0 =
          'v' :: 'e' :: 'r' :: 'y' :: ' ' ::
            subGo (redundantPattern "really") firstTokenRepl (veryRun (m+1)) false 0 := rfl
      rw [step, ih (m+1) (by omega)]
      rfl

/-- Same for the "actually" pattern. -/
theorem subGo_actually_run : ∀ n,
    subGo (redundantPattern "actually") firstTokenRepl (veryRun n) false 0 = veryRun n := by
  intro n
  induction n using Nat.strong_induction_on with
  | _ n ih =>
    match n with
    | 0 => rfl
    | 1 => rfl
    | m+2 =>
      have step : subGo (redundantPattern "actually") firstTokenRepl
          (veryRun (m+2)) false 0 =
          'v' :: 'e' :: 'r' :: 'y' :: ' ' ::
            subGo (redundantPattern "actually") firstTokenRepl (veryRun (m+1)) false 0 := rfl
      rw [step, ih (m+1) (by omega)]
      rfl

/-- One substitution step of the "very" pattern at the head of a double
"very": the pair is consumed, its first token is emitted, scanning
resumes after the match. -/
theorem subGo_very_step (t : List Char) :
    subGo (redundantPattern "very") firstTokenRepl
      ('v' :: 'e' :: 'r' :: 'y' :: ' ' :: 'v' :: 'e' :: 'r' :: 'y' :: ' ' :: t) false 0 =
    'v' :: 'e' :: 'r' :: 'y' ::
      subGo (redundantPattern "very") firstTokenRepl (' ' :: t) true 0 := by
  have hm : matchAt (redundantPattern "very")
      ('v' :: 'e' :: 'r' :: 'y' :: ' ' :: 'v' :: 'e' :: 'r' :: 'y' :: ' ' :: t) false =
      some (' ' :: t) := rfl
  rw [subGo, hm]
  simp [List.length]
  rfl

/-- The "very" substitution halves (rounding up) a run of "very"s. -/
theorem subGo_very_run : ∀ n,
    subGo (redundantPattern "very") firstTokenRepl (veryRun n) false 0 =
      veryRun ((n+1)/2) := by
  intro n
  induction n using Nat.strong_induction_on with
  | _ n ih =>
    match n with
    | 0 => rfl
    | 1 => rfl
    | 2 => decide
    | m+3 =>
      have hshape : veryRun (m+3) =
          'v' :: 'e' :: 'r' :: 'y' :: ' ' :: 'v' :: 'e' :: 'r' :: 'y' :: ' ' ::
            veryRun (m+1) := rfl
      have hskip : subGo (redundantPattern "very") firstTokenRepl
          (' ' :: veryRun (m+1)) true 0 =
          ' ' :: subGo (redundantPattern "very") firstTokenRepl (veryRun (m+1)) false 0 := rfl
      rw [hshape, subGo_very_step, hskip, ih (m+1) (by omega)]
      have harith : (m+1+1)/2 + 1 = (m+3+1)/2 := by omega
      have hjoin : 'v' :: 'e' :: 'r' :: 'y' :: ' ' :: veryRun ((m+1+1)/2) =
          veryRun ((m+1+1)/2 + 1) := by
        have hge : 1 ≤ (m+1+1)/2 := by omega
        match hk : (m+1+1)/2 with
        | 0 => omega
        | k+1 => rfl
      rw [hjoin, harith]

/-- `remove_redundancy` unfolded to its four substitution passes. -/
theorem remove_redundancy_eq (s : List Char) :
    remove_redundancy s =
      subGo (redundantPattern "actually") firstTokenRepl
        (subGo (redundantPattern "really") firstTokenRepl
          (subGo (redundantPattern "very") firstTokenRepl
            (subGo (redundantPattern "please") firstTokenRepl s false 0) false 0)
          false 0) false 0 := rfl

/-- `remove_redundancy` on a run of `n` "very"s yields a run of `⌈n/2⌉`. -/
theorem remove_redundancy_run (n : Nat) :
    remove_redundancy (veryRun n) = veryRun ((n+1)/2) := by
  rw [remove_redundancy_eq, subGo_please_run, subGo_very_run,
    subGo_really_run, subGo_actually_run]

theorem veryRun_length : ∀ n, (veryRun n).length = if n = 0 then 0 else 5*n - 1 := by
  intro n
  induction n using Nat.strong_induction_on with
  | _ n ih =>
    match n with
    | 0 => rfl
    | 1 => rfl
    | m+2 =>
      have : veryRun (m+2) = "very ".data ++ veryRun (m+1) := rfl
      rw [this, List.length_append, ih (m+1) (by omega)]
      by_cases hm : m = 0 <;> simp [hm] <;> omega

theorem veryRun_inj {a b : Nat} (h : veryRun a = veryRun b) : a = b := by
  have hl := congrArg List.length h
  rw [veryRun_length, veryRun_length] at hl
  by_cases ha : a = 0 <;> by_cases hb : b = 0 <;> simp [ha, hb] at hl <;> omega

end Optimizer

open Optimizer in
/-- Claim C8 (corrected): on a run of `n ≥ 1` consecutive occurrences of
the redundant word "very", one application of `remove_redundancy`
collapses the run to `⌈n/2⌉` occurrences, so applying it twice agrees
with applying it once exactly when `n ≤ 2`; idempotence fails from the
first triple onwards. -/
theorem C8_remove_redundancy_runs (n : Nat) (h : 1 ≤ n) :
    remove_redundancy (veryRun n) = veryRun ((n+1)/2) ∧
    (remove_redundancy (remove_redundancy (veryRun n)) =
      remove_redundancy (veryRun n) ↔ n ≤ 2) := by
  refine ⟨remove_redundancy_run n, ?_⟩
  rw [remove_redundancy_run n, remove_redundancy_run ((n+1)/2)]
  constructor
  · intro he
    have := veryRun_inj he
    omega
  · intro hle
    have : ((n+1)/2 + 1)/2 = (n+1)/2 := by omega
    rw [this]

/-- Claim C8 witness: at `n = 3` one application leaves a pair and the
second collapses it, refuting idempotence. -/
theorem C8_remove_redundancy_runs_witness :
    Optimizer.remove_redundancy (veryRun 3) = veryRun 2 ∧
    ¬ (Optimizer.remove_redundancy (Optimizer.remove_redundancy (veryRun 3)) =
      Optimizer.remove_redundancy (veryRun 3)) := by
  have h := C8_remove_redundancy_runs 3 (by decide)
  exact ⟨h.1, fun hc => by have := h.2.mp hc; omega⟩

namespace Optimizer

/-- `_generate_prompt_neighbors` always yields exactly `count` neighbors. -/
theorem generate_prompt_neighbors_length (p : List Char) :
    ∀ (n : Nat) (r : Rng), ((generate_prompt_neighbors p n r).1).length = n := by
  intro n
  induction n with
  | zero => intro r; rfl
  | succ m ih =>
    intro r
    simp only [generate_prompt_neighbors]
    simp [ih]

/-- The neighbor scan never lowers the running best score (it replaces
the best only on a strict improvement). -/
theorem best_neighbor_scan_mono :
    ∀ (ns : List (List Char)) (best res : List Char × PromptEvaluation),
      best_neighbor_scan ns best = .ok res →
      best.2.overall_score ≤ res.2.overall_score := by
  intro ns
  induction ns with
  | nil =>
    intro best res h
    cases h
    exact le_refl _
  | cons n rest ih =>
    intro best res h
    rw [best_neighbor_scan] at h
    cases hev : evaluate_prompt n with
    | error e =>
      rw [hev] at h
      cases h
    | ok ev =>
      rw [hev] at h
      have h2 : (if ev.overall_score > best.2.overall_score then
          best_neighbor_scan rest (n, ev) else best_neighbor_scan rest best) =
          Except.ok res := h
      by_cases hgt : ev.overall_score > best.2.overall_score
      · rw [if_pos hgt] at h2
        have := ih (n, ev) res h2
        exact le_trans (le_of_lt hgt) this
      · rw [if_neg hgt] at h2
        exact ih best res h2

end Optimizer

open Optimizer in
/-- Claim C6 (confirmed): the hill-climbing strategy runs at most
`max_iterations` iterations (exhausted fuel returns the current
candidate and its evaluation), each iteration generates exactly five
mutated neighbors, the scan over them never adopts a candidate that is
not strictly better, and the loop recurses exactly when the best
neighbor strictly improves the current overall score — otherwise it
terminates immediately with the current candidate. -/
theorem C6_hill_climbing_structure (p : List Char) (e : PromptEvaluation)
    (rng : Rng) :
    hill_climbing_aux 0 p e rng = .ok (p, e) ∧
    ((generate_prompt_neighbors p 5 rng).1).length = 5 ∧
    (∀ (fuel : Nat) (bp : List Char) (be : PromptEvaluation),
      best_neighbor_scan (generate_prompt_neighbors p 5 rng).1 (p, e) = .ok (bp, be) →
      ((be.overall_score > e.overall_score →
        hill_climbing_aux (fuel+1) p e rng =
          hill_climbing_aux fuel bp be (generate_prompt_neighbors p 5 rng).2) ∧
       (¬ be.overall_score > e.overall_score →
        hill_climbing_aux (fuel+1) p e rng = .ok (p, e)))) ∧
    (∀ (ns : List (List Char)) (best res : List Char × PromptEvaluation),
      best_neighbor_scan ns best = .ok res →
      best.2.overall_score ≤ res.2.overall_score) ∧
    (∀ req : OptimizationRequest,
      hill_climbing_optimization p req e rng =
        hill_climbing_aux req.max_iterations p e rng) := by
  refine ⟨rfl, generate_prompt_neighbors_length p 5 rng, ?_, best_neighbor_scan_mono, fun _ => rfl⟩
  intro fuel bp be hscan
  have hstep : hill_climbing_aux (fuel+1) p e rng =
      (best_neighbor_scan (generate_prompt_neighbors p 5 rng).1 (p, e)).bind
        (fun best =>
          if best.2.overall_score > e.overall_score then
            hill_climbing_aux fuel best.1 best.2 (generate_prompt_neighbors p 5 rng).2
          else .ok (p, e)) := rfl
  rw [hstep, hscan]
  constructor
  · intro hgt
    show (if be.overall_score > e.overall_score then _ else _) = _
    rw [if_pos hgt]
  · intro hle
    show (if be.overall_score > e.overall_score then _ else _) = _
    rw [if_neg hle]


/-- The all-ones randomness stream: every `random.choice` picks the
second alternative, so `_mutate_prompt` always applies
`_simplify_language` — which leaves `"hi"` unchanged. -/
def constOneRng : Optimizer.Rng := { seq := fun _ => 1, pos := 0 }

/-- The evaluation record of `"hi"`. -/
def hiEval : Optimizer.PromptEvaluation :=
  { prompt := "hi".data, cost_score := 1, performance_score := 1/2,
    quality_score := 1/2, safety_score := 1, latency_score := 1,
    overall_score := 4/5, token_count := 0, estimated_cost := 0 }

namespace Optimizer

/-- One step of the neighbor scan, given the neighbor's evaluation. -/
theorem best_neighbor_scan_cons (n : List Char) (ns : List (List Char))
    (best : List Char × PromptEvaluation) (ev : PromptEvaluation)
    (hev : evaluate_prompt n = .ok ev) :
    best_neighbor_scan (n :: ns) best =
      (if ev.overall_score > best.2.overall_score then
        best_neighbor_scan ns (n, ev) else best_neighbor_scan ns best) := by
  rw [best_neighbor_scan, hev]
  rfl

end Optimizer

/-- Claim C6 witness: under the all-ones randomness stream the five
neighbors of `"hi"` are all `"hi"` itself (the simplify mutation changes
nothing), so no neighbor strictly improves the score and a single
iteration terminates immediately with the current candidate and its
evaluation. -/
theorem C6_hill_climbing_witness :
    Optimizer.best_neighbor_scan
      (Optimizer.generate_prompt_neighbors "hi".data 5 constOneRng).1
      ("hi".data, hiEval) = .ok ("hi".data, hiEval) ∧
    Optimizer.hill_climbing_aux 1 "hi".data hiEval constOneRng =
      .ok ("hi".data, hiEval) := by
  have hev : Optimizer.evaluate_prompt "hi".data = .ok hiEval := by
    with_unfolding_all decide
  have hnb : (Optimizer.generate_prompt_neighbors "hi".data 5 constOneRng).1 =
      ["hi".data, "hi".data, "hi".data, "hi".data, "hi".data] := by
    decide
  have hscan : Optimizer.best_neighbor_scan
      (Optimizer.generate_prompt_neighbors "hi".data 5 constOneRng).1
      ("hi".data, hiEval) = .ok ("hi".data, hiEval) := by
    rw [hnb]
    rw [Optimizer.best_neighbor_scan_cons _ _ _ _ hev, if_neg (lt_irrefl _),
      Optimizer.best_neighbor_scan_cons _ _ _ _ hev, if_neg (lt_irrefl _),
      Optimizer.best_neighbor_scan_cons _ _ _ _ hev, if_neg (lt_irrefl _),
      Optimizer.best_neighbor_scan_cons _ _ _ _ hev, if_neg (lt_irrefl _),
      Optimizer.best_neighbor_scan_cons _ _ _ _ hev, if_neg (lt_irrefl _)]
    rfl
  have hC := (C6_hill_climbing_structure "hi".data hiEval constOneRng).2.2.1
    0 "hi".data hiEval hscan
  exact ⟨hscan, hC.2 (lt_irrefl _)⟩
